import Mathlib

/-!
# Verification of minigrep (src/lib.rs)

A shallow embedding of the minigrep library: the two search functions
`search` and `search_case_insensitive`, the argument/environment parsing
in `Config.build`, and the `run` orchestration.  Strings are modelled as
`List Char`; the standard-library helpers the code calls
(`str::lines`, `str::contains`, `str::to_lowercase`, `std::env::var`,
`std::fs::read_to_string`) are embedded alongside.
-/

namespace Minigrep

/-! ## Embedding of the Rust standard-library string helpers -/

/-- `q.isPrefixList l` embeds the prefix test used by substring search:
`true` iff `l` starts with `q`. -/
def isPrefixList : List Char → List Char → Bool
  | [], _ => true
  | _ :: _, [] => false
  | a :: qs, b :: ls => a == b && isPrefixList qs ls

/-- `isSubstring q l` embeds Rust `l.contains(q)` for string patterns:
`true` iff `q` occurs contiguously inside `l`. -/
def isSubstring (q : List Char) : List Char → Bool
  | [] => isPrefixList q []
  | c :: ls => isPrefixList q (c :: ls) || isSubstring q ls

/-- Embeds Rust `str::split_inclusive('\n')`: cuts after every line feed,
keeping the terminator in the piece; an empty input yields no pieces. -/
def splitInclusiveNl : List Char → List (List Char)
  | [] => []
  | c :: cs =>
    if c = '\n' then [c] :: splitInclusiveNl cs
    else
      match splitInclusiveNl cs with
      | [] => [[c]]
      | l :: ls => (c :: l) :: ls

/-- Embeds the per-piece map inside Rust `str::lines`: strip one trailing
`'\n'`, and if that succeeded also strip one trailing `'\r'`. -/
def linesMap (l : List Char) : List Char :=
  if l.getLast? = some '\n' then
    if l.dropLast.getLast? = some '\r' then l.dropLast.dropLast else l.dropLast
  else l

/-- Embeds Rust `str::lines`: `split_inclusive('\n')` with terminators
(`"\n"` or `"\r\n"`) removed from each piece. -/
def rustLines (s : List Char) : List (List Char) :=
  (splitInclusiveNl s).map linesMap

/-- A balanced search tree from code point to lowercase expansion,
embedding the sorted case-conversion table Rust binary-searches. -/
inductive CaseTable where
  | leaf
  | node (lo : CaseTable) (key : Nat) (val : List Nat) (hi : CaseTable)

/-- Binary search in a `CaseTable`. -/
def CaseTable.find (n : Nat) : CaseTable → Option (List Nat)
  | .leaf => none
  | .node lo k v hi =>
    if n < k then lo.find n else if n = k then some v else hi.find n

/-- `allVals p t`: `p` holds of every value stored in `t`. -/
def CaseTable.allVals (p : List Nat → Bool) : CaseTable → Bool
  | .leaf => true
  | .node lo _ v hi => p v && lo.allVals p && hi.allVals p

/-- A balanced search tree of disjoint sorted inclusive code-point
ranges, embedding a binary-searched Unicode property table. -/
inductive RangeTable where
  | leaf
  | node (lo : RangeTable) (first last : Nat) (hi : RangeTable)

/-- Binary search in a `RangeTable`: is `n` inside one of the ranges? -/
def RangeTable.holds (n : Nat) : RangeTable → Bool
  | .leaf => false
  | .node lo a b hi =>
    if n < a then lo.holds n else if n ≤ b then true else hi.holds n

/-- The sorted table of the unconditional per-character lowercase mapping
used by Rust `str::to_lowercase` (`conversions::to_lower`, a binary search
over the case-conversion table of the Unicode character database), as a
balanced search tree from code point to full lowercase expansion; unlisted
code points lowercase to themselves.  The one context-sensitive character,
capital sigma, is handled separately by the caller. -/
def lowerTree : CaseTable :=
  (.node (.node (.node (.node (.node (.node (.node (.node (.node (.node (.node .leaf 0x41 [0x61]
  .leaf) 0x42 [0x62] .leaf) 0x43 [0x63] (.node (.node .leaf 0x44 [0x64] .leaf) 0x45 [0x65] .leaf))
  0x46 [0x66] (.node (.node (.node .leaf 0x47 [0x67] .leaf) 0x48 [0x68] .leaf) 0x49 [0x69] (.node
  (.node .leaf 0x4A [0x6A] .leaf) 0x4B [0x6B] .leaf))) 0x4C [0x6C] (.node (.node (.node (.node .leaf
  0x4D [0x6D] .leaf) 0x4E [0x6E] .leaf) 0x4F [0x6F] (.node (.node .leaf 0x50 [0x70] .leaf) 0x51
  [0x71] .leaf)) 0x52 [0x72] (.node (.node (.node .leaf 0x53 [0x73] .leaf) 0x54 [0x74] .leaf) 0x55
  [0x75] (.node .leaf 0x56 [0x76] .leaf)))) 0x57 [0x77] (.node (.node (.node (.node (.node .leaf
  0x58 [0x78] .leaf) 0x59 [0x79] .leaf) 0x5A [0x7A] (.node (.node .leaf 0xC0 [0xE0] .leaf) 0xC1
  [0xE1] .leaf)) 0xC2 [0xE2] (.node (.node (.node .leaf 0xC3 [0xE3] .leaf) 0xC4 [0xE4] .leaf) 0xC5
  [0xE5] (.node .leaf 0xC6 [0xE6] .leaf))) 0xC7 [0xE7] (.node (.node (.node (.node .leaf 0xC8 [0xE8]
  .leaf) 0xC9 [0xE9] .leaf) 0xCA [0xEA] (.node (.node .leaf 0xCB [0xEB] .leaf) 0xCC [0xEC] .leaf))
  0xCD [0xED] (.node (.node (.node .leaf 0xCE [0xEE] .leaf) 0xCF [0xEF] .leaf) 0xD0 [0xF0] (.node
  .leaf 0xD1 [0xF1] .leaf))))) 0xD2 [0xF2] (.node (.node (.node (.node (.node (.node .leaf 0xD3
  [0xF3] .leaf) 0xD4 [0xF4] .leaf) 0xD5 [0xF5] (.node (.node .leaf 0xD6 [0xF6] .leaf) 0xD8 [0xF8]
  .leaf)) 0xD9 [0xF9] (.node (.node (.node .leaf 0xDA [0xFA] .leaf) 0xDB [0xFB] .leaf) 0xDC [0xFC]
  (.node (.node .leaf 0xDD [0xFD] .leaf) 0xDE [0xFE] .leaf))) 0x100 [0x101] (.node (.node (.node
  (.node .leaf 0x102 [0x103] .leaf) 0x104 [0x105] .leaf) 0x106 [0x107] (.node (.node .leaf 0x108
  [0x109] .leaf) 0x10A [0x10B] .leaf)) 0x10C [0x10D] (.node (.node (.node .leaf 0x10E [0x10F] .leaf)
  0x110 [0x111] .leaf) 0x112 [0x113] (.node .leaf 0x114 [0x115] .leaf)))) 0x116 [0x117] (.node
  (.node (.node (.node (.node .leaf 0x118 [0x119] .leaf) 0x11A [0x11B] .leaf) 0x11C [0x11D] (.node
  (.node .leaf 0x11E [0x11F] .leaf) 0x120 [0x121] .leaf)) 0x122 [0x123] (.node (.node (.node .leaf
  0x124 [0x125] .leaf) 0x126 [0x127] .leaf) 0x128 [0x129] (.node .leaf 0x12A [0x12B] .leaf))) 0x12C
  [0x12D] (.node (.node (.node (.node .leaf 0x12E [0x12F] .leaf) 0x130 [0x69, 0x307] .leaf) 0x132
  [0x133] (.node (.node .leaf 0x134 [0x135] .leaf) 0x136 [0x137] .leaf)) 0x139 [0x13A] (.node (.node
  (.node .leaf 0x13B [0x13C] .leaf) 0x13D [0x13E] .leaf) 0x13F [0x140] (.node .leaf 0x141 [0x142]
  .leaf)))))) 0x143 [0x144] (.node (.node (.node (.node (.node (.node (.node .leaf 0x145 [0x146]
  .leaf) 0x147 [0x148] .leaf) 0x14A [0x14B] (.node (.node .leaf 0x14C [0x14D] .leaf) 0x14E [0x14F]
  .leaf)) 0x150 [0x151] (.node (.node (.node .leaf 0x152 [0x153] .leaf) 0x154 [0x155] .leaf) 0x156
  [0x157] (.node (.node .leaf 0x158 [0x159] .leaf) 0x15A [0x15B] .leaf))) 0x15C [0x15D] (.node
  (.node (.node (.node .leaf 0x15E [0x15F] .leaf) 0x160 [0x161] .leaf) 0x162 [0x163] (.node (.node
  .leaf 0x164 [0x165] .leaf) 0x166 [0x167] .leaf)) 0x168 [0x169] (.node (.node (.node .leaf 0x16A
  [0x16B] .leaf) 0x16C [0x16D] .leaf) 0x16E [0x16F] (.node .leaf 0x170 [0x171] .leaf)))) 0x172
  [0x173] (.node (.node (.node (.node (.node .leaf 0x174 [0x175] .leaf) 0x176 [0x177] .leaf) 0x178
  [0xFF] (.node (.node .leaf 0x179 [0x17A] .leaf) 0x17B [0x17C] .leaf)) 0x17D [0x17E] (.node (.node
  (.node .leaf 0x181 [0x253] .leaf) 0x182 [0x183] .leaf) 0x184 [0x185] (.node .leaf 0x186 [0x254]
  .leaf))) 0x187 [0x188] (.node (.node (.node (.node .leaf 0x189 [0x256] .leaf) 0x18A [0x257] .leaf)
  0x18B [0x18C] (.node (.node .leaf 0x18E [0x1DD] .leaf) 0x18F [0x259] .leaf)) 0x190 [0x25B] (.node
  (.node (.node .leaf 0x191 [0x192] .leaf) 0x193 [0x260] .leaf) 0x194 [0x263] (.node .leaf 0x196
  [0x269] .leaf))))) 0x197 [0x268] (.node (.node (.node (.node (.node (.node .leaf 0x198 [0x199]
  .leaf) 0x19C [0x26F] .leaf) 0x19D [0x272] (.node (.node .leaf 0x19F [0x275] .leaf) 0x1A0 [0x1A1]
  .leaf)) 0x1A2 [0x1A3] (.node (.node (.node .leaf 0x1A4 [0x1A5] .leaf) 0x1A6 [0x280] .leaf) 0x1A7
  [0x1A8] (.node (.node .leaf 0x1A9 [0x283] .leaf) 0x1AC [0x1AD] .leaf))) 0x1AE [0x288] (.node
  (.node (.node (.node .leaf 0x1AF [0x1B0] .leaf) 0x1B1 [0x28A] .leaf) 0x1B2 [0x28B] (.node (.node
  .leaf 0x1B3 [0x1B4] .leaf) 0x1B5 [0x1B6] .leaf)) 0x1B7 [0x292] (.node (.node (.node .leaf 0x1B8
  [0x1B9] .leaf) 0x1BC [0x1BD] .leaf) 0x1C4 [0x1C6] (.node .leaf 0x1C5 [0x1C6] .leaf)))) 0x1C7
  [0x1C9] (.node (.node (.node (.node (.node .leaf 0x1C8 [0x1C9] .leaf) 0x1CA [0x1CC] .leaf) 0x1CB
  [0x1CC] (.node (.node .leaf 0x1CD [0x1CE] .leaf) 0x1CF [0x1D0] .leaf)) 0x1D1 [0x1D2] (.node (.node
  (.node .leaf 0x1D3 [0x1D4] .leaf) 0x1D5 [0x1D6] .leaf) 0x1D7 [0x1D8] (.node .leaf 0x1D9 [0x1DA]
  .leaf))) 0x1DB [0x1DC] (.node (.node (.node (.node .leaf 0x1DE [0x1DF] .leaf) 0x1E0 [0x1E1] .leaf)
  0x1E2 [0x1E3] (.node (.node .leaf 0x1E4 [0x1E5] .leaf) 0x1E6 [0x1E7] .leaf)) 0x1E8 [0x1E9] (.node
  (.node (.node .leaf 0x1EA [0x1EB] .leaf) 0x1EC [0x1ED] .leaf) 0x1EE [0x1EF] (.node .leaf 0x1F1
  [0x1F3] .leaf))))))) 0x1F2 [0x1F3] (.node (.node (.node (.node (.node (.node (.node (.node .leaf
  0x1F4 [0x1F5] .leaf) 0x1F6 [0x195] .leaf) 0x1F7 [0x1BF] (.node (.node .leaf 0x1F8 [0x1F9] .leaf)
  0x1FA [0x1FB] .leaf)) 0x1FC [0x1FD] (.node (.node (.node .leaf 0x1FE [0x1FF] .leaf) 0x200 [0x201]
  .leaf) 0x202 [0x203] (.node (.node .leaf 0x204 [0x205] .leaf) 0x206 [0x207] .leaf))) 0x208 [0x209]
  (.node (.node (.node (.node .leaf 0x20A [0x20B] .leaf) 0x20C [0x20D] .leaf) 0x20E [0x20F] (.node
  (.node .leaf 0x210 [0x211] .leaf) 0x212 [0x213] .leaf)) 0x214 [0x215] (.node (.node (.node .leaf
  0x216 [0x217] .leaf) 0x218 [0x219] .leaf) 0x21A [0x21B] (.node .leaf 0x21C [0x21D] .leaf)))) 0x21E
  [0x21F] (.node (.node (.node (.node (.node .leaf 0x220 [0x19E] .leaf) 0x222 [0x223] .leaf) 0x224
  [0x225] (.node (.node .leaf 0x226 [0x227] .leaf) 0x228 [0x229] .leaf)) 0x22A [0x22B] (.node (.node
  (.node .leaf 0x22C [0x22D] .leaf) 0x22E [0x22F] .leaf) 0x230 [0x231] (.node .leaf 0x232 [0x233]
  .leaf))) 0x23A [0x2C65] (.node (.node (.node (.node .leaf 0x23B [0x23C] .leaf) 0x23D [0x19A]
  .leaf) 0x23E [0x2C66] (.node (.node .leaf 0x241 [0x242] .leaf) 0x243 [0x180] .leaf)) 0x244 [0x289]
  (.node (.node (.node .leaf 0x245 [0x28C] .leaf) 0x246 [0x247] .leaf) 0x248 [0x249] (.node .leaf
  0x24A [0x24B] .leaf))))) 0x24C [0x24D] (.node (.node (.node (.node (.node (.node .leaf 0x24E
  [0x24F] .leaf) 0x370 [0x371] .leaf) 0x372 [0x373] (.node (.node .leaf 0x376 [0x377] .leaf) 0x37F
  [0x3F3] .leaf)) 0x386 [0x3AC] (.node (.node (.node .leaf 0x388 [0x3AD] .leaf) 0x389 [0x3AE] .leaf)
  0x38A [0x3AF] (.node (.node .leaf 0x38C [0x3CC] .leaf) 0x38E [0x3CD] .leaf))) 0x38F [0x3CE] (.node
  (.node (.node (.node .leaf 0x391 [0x3B1] .leaf) 0x392 [0x3B2] .leaf) 0x393 [0x3B3] (.node (.node
  .leaf 0x394 [0x3B4] .leaf) 0x395 [0x3B5] .leaf)) 0x396 [0x3B6] (.node (.node (.node .leaf 0x397
  [0x3B7] .leaf) 0x398 [0x3B8] .leaf) 0x399 [0x3B9] (.node .leaf 0x39A [0x3BA] .leaf)))) 0x39B
  [0x3BB] (.node (.node (.node (.node (.node .leaf 0x39C [0x3BC] .leaf) 0x39D [0x3BD] .leaf) 0x39E
  [0x3BE] (.node (.node .leaf 0x39F [0x3BF] .leaf) 0x3A0 [0x3C0] .leaf)) 0x3A1 [0x3C1] (.node (.node
  (.node .leaf 0x3A3 [0x3C3] .leaf) 0x3A4 [0x3C4] .leaf) 0x3A5 [0x3C5] (.node .leaf 0x3A6 [0x3C6]
  .leaf))) 0x3A7 [0x3C7] (.node (.node (.node (.node .leaf 0x3A8 [0x3C8] .leaf) 0x3A9 [0x3C9] .leaf)
  0x3AA [0x3CA] (.node (.node .leaf 0x3AB [0x3CB] .leaf) 0x3CF [0x3D7] .leaf)) 0x3D8 [0x3D9] (.node
  (.node (.node .leaf 0x3DA [0x3DB] .leaf) 0x3DC [0x3DD] .leaf) 0x3DE [0x3DF] (.node .leaf 0x3E0
  [0x3E1] .leaf)))))) 0x3E2 [0x3E3] (.node (.node (.node (.node (.node (.node (.node .leaf 0x3E4
  [0x3E5] .leaf) 0x3E6 [0x3E7] .leaf) 0x3E8 [0x3E9] (.node (.node .leaf 0x3EA [0x3EB] .leaf) 0x3EC
  [0x3ED] .leaf)) 0x3EE [0x3EF] (.node (.node (.node .leaf 0x3F4 [0x3B8] .leaf) 0x3F7 [0x3F8] .leaf)
  0x3F9 [0x3F2] (.node (.node .leaf 0x3FA [0x3FB] .leaf) 0x3FD [0x37B] .leaf))) 0x3FE [0x37C] (.node
  (.node (.node (.node .leaf 0x3FF [0x37D] .leaf) 0x400 [0x450] .leaf) 0x401 [0x451] (.node (.node
  .leaf 0x402 [0x452] .leaf) 0x403 [0x453] .leaf)) 0x404 [0x454] (.node (.node (.node .leaf 0x405
  [0x455] .leaf) 0x406 [0x456] .leaf) 0x407 [0x457] (.node .leaf 0x408 [0x458] .leaf)))) 0x409
  [0x459] (.node (.node (.node (.node (.node .leaf 0x40A [0x45A] .leaf) 0x40B [0x45B] .leaf) 0x40C
  [0x45C] (.node (.node .leaf 0x40D [0x45D] .leaf) 0x40E [0x45E] .leaf)) 0x40F [0x45F] (.node (.node
  (.node .leaf 0x410 [0x430] .leaf) 0x411 [0x431] .leaf) 0x412 [0x432] (.node .leaf 0x413 [0x433]
  .leaf))) 0x414 [0x434] (.node (.node (.node (.node .leaf 0x415 [0x435] .leaf) 0x416 [0x436] .leaf)
  0x417 [0x437] (.node (.node .leaf 0x418 [0x438] .leaf) 0x419 [0x439] .leaf)) 0x41A [0x43A] (.node
  (.node (.node .leaf 0x41B [0x43B] .leaf) 0x41C [0x43C] .leaf) 0x41D [0x43D] (.node .leaf 0x41E
  [0x43E] .leaf))))) 0x41F [0x43F] (.node (.node (.node (.node (.node (.node .leaf 0x420 [0x440]
  .leaf) 0x421 [0x441] .leaf) 0x422 [0x442] (.node (.node .leaf 0x423 [0x443] .leaf) 0x424 [0x444]
  .leaf)) 0x425 [0x445] (.node (.node (.node .leaf 0x426 [0x446] .leaf) 0x427 [0x447] .leaf) 0x428
  [0x448] (.node .leaf 0x429 [0x449] .leaf))) 0x42A [0x44A] (.node (.node (.node (.node .leaf 0x42B
  [0x44B] .leaf) 0x42C [0x44C] .leaf) 0x42D [0x44D] (.node (.node .leaf 0x42E [0x44E] .leaf) 0x42F
  [0x44F] .leaf)) 0x460 [0x461] (.node (.node (.node .leaf 0x462 [0x463] .leaf) 0x464 [0x465] .leaf)
  0x466 [0x467] (.node .leaf 0x468 [0x469] .leaf)))) 0x46A [0x46B] (.node (.node (.node (.node
  (.node .leaf 0x46C [0x46D] .leaf) 0x46E [0x46F] .leaf) 0x470 [0x471] (.node (.node .leaf 0x472
  [0x473] .leaf) 0x474 [0x475] .leaf)) 0x476 [0x477] (.node (.node (.node .leaf 0x478 [0x479] .leaf)
  0x47A [0x47B] .leaf) 0x47C [0x47D] (.node .leaf 0x47E [0x47F] .leaf))) 0x480 [0x481] (.node (.node
  (.node (.node .leaf 0x48A [0x48B] .leaf) 0x48C [0x48D] .leaf) 0x48E [0x48F] (.node (.node .leaf
  0x490 [0x491] .leaf) 0x492 [0x493] .leaf)) 0x494 [0x495] (.node (.node (.node .leaf 0x496 [0x497]
  .leaf) 0x498 [0x499] .leaf) 0x49A [0x49B] (.node .leaf 0x49C [0x49D] .leaf)))))))) 0x49E [0x49F]
  (.node (.node (.node (.node (.node (.node (.node (.node (.node .leaf 0x4A0 [0x4A1] .leaf) 0x4A2
  [0x4A3] .leaf) 0x4A4 [0x4A5] (.node (.node .leaf 0x4A6 [0x4A7] .leaf) 0x4A8 [0x4A9] .leaf)) 0x4AA
  [0x4AB] (.node (.node (.node .leaf 0x4AC [0x4AD] .leaf) 0x4AE [0x4AF] .leaf) 0x4B0 [0x4B1] (.node
  (.node .leaf 0x4B2 [0x4B3] .leaf) 0x4B4 [0x4B5] .leaf))) 0x4B6 [0x4B7] (.node (.node (.node (.node
  .leaf 0x4B8 [0x4B9] .leaf) 0x4BA [0x4BB] .leaf) 0x4BC [0x4BD] (.node (.node .leaf 0x4BE [0x4BF]
  .leaf) 0x4C0 [0x4CF] .leaf)) 0x4C1 [0x4C2] (.node (.node (.node .leaf 0x4C3 [0x4C4] .leaf) 0x4C5
  [0x4C6] .leaf) 0x4C7 [0x4C8] (.node .leaf 0x4C9 [0x4CA] .leaf)))) 0x4CB [0x4CC] (.node (.node
  (.node (.node (.node .leaf 0x4CD [0x4CE] .leaf) 0x4D0 [0x4D1] .leaf) 0x4D2 [0x4D3] (.node (.node
  .leaf 0x4D4 [0x4D5] .leaf) 0x4D6 [0x4D7] .leaf)) 0x4D8 [0x4D9] (.node (.node (.node .leaf 0x4DA
  [0x4DB] .leaf) 0x4DC [0x4DD] .leaf) 0x4DE [0x4DF] (.node .leaf 0x4E0 [0x4E1] .leaf))) 0x4E2
  [0x4E3] (.node (.node (.node (.node .leaf 0x4E4 [0x4E5] .leaf) 0x4E6 [0x4E7] .leaf) 0x4E8 [0x4E9]
  (.node (.node .leaf 0x4EA [0x4EB] .leaf) 0x4EC [0x4ED] .leaf)) 0x4EE [0x4EF] (.node (.node (.node
  .leaf 0x4F0 [0x4F1] .leaf) 0x4F2 [0x4F3] .leaf) 0x4F4 [0x4F5] (.node .leaf 0x4F6 [0x4F7]
  .leaf))))) 0x4F8 [0x4F9] (.node (.node (.node (.node (.node (.node .leaf 0x4FA [0x4FB] .leaf)
  0x4FC [0x4FD] .leaf) 0x4FE [0x4FF] (.node (.node .leaf 0x500 [0x501] .leaf) 0x502 [0x503] .leaf))
  0x504 [0x505] (.node (.node (.node .leaf 0x506 [0x507] .leaf) 0x508 [0x509] .leaf) 0x50A [0x50B]
  (.node (.node .leaf 0x50C [0x50D] .leaf) 0x50E [0x50F] .leaf))) 0x510 [0x511] (.node (.node (.node
  (.node .leaf 0x512 [0x513] .leaf) 0x514 [0x515] .leaf) 0x516 [0x517] (.node (.node .leaf 0x518
  [0x519] .leaf) 0x51A [0x51B] .leaf)) 0x51C [0x51D] (.node (.node (.node .leaf 0x51E [0x51F] .leaf)
  0x520 [0x521] .leaf) 0x522 [0x523] (.node .leaf 0x524 [0x525] .leaf)))) 0x526 [0x527] (.node
  (.node (.node (.node (.node .leaf 0x528 [0x529] .leaf) 0x52A [0x52B] .leaf) 0x52C [0x52D] (.node
  (.node .leaf 0x52E [0x52F] .leaf) 0x531 [0x561] .leaf)) 0x532 [0x562] (.node (.node (.node .leaf
  0x533 [0x563] .leaf) 0x534 [0x564] .leaf) 0x535 [0x565] (.node .leaf 0x536 [0x566] .leaf))) 0x537
  [0x567] (.node (.node (.node (.node .leaf 0x538 [0x568] .leaf) 0x539 [0x569] .leaf) 0x53A [0x56A]
  (.node (.node .leaf 0x53B [0x56B] .leaf) 0x53C [0x56C] .leaf)) 0x53D [0x56D] (.node (.node (.node
  .leaf 0x53E [0x56E] .leaf) 0x53F [0x56F] .leaf) 0x540 [0x570] (.node .leaf 0x541 [0x571]
  .leaf)))))) 0x542 [0x572] (.node (.node (.node (.node (.node (.node (.node .leaf 0x543 [0x573]
  .leaf) 0x544 [0x574] .leaf) 0x545 [0x575] (.node (.node .leaf 0x546 [0x576] .leaf) 0x547 [0x577]
  .leaf)) 0x548 [0x578] (.node (.node (.node .leaf 0x549 [0x579] .leaf) 0x54A [0x57A] .leaf) 0x54B
  [0x57B] (.node (.node .leaf 0x54C [0x57C] .leaf) 0x54D [0x57D] .leaf))) 0x54E [0x57E] (.node
  (.node (.node (.node .leaf 0x54F [0x57F] .leaf) 0x550 [0x580] .leaf) 0x551 [0x581] (.node (.node
  .leaf 0x552 [0x582] .leaf) 0x553 [0x583] .leaf)) 0x554 [0x584] (.node (.node (.node .leaf 0x555
  [0x585] .leaf) 0x556 [0x586] .leaf) 0x10A0 [0x2D00] (.node .leaf 0x10A1 [0x2D01] .leaf)))) 0x10A2
  [0x2D02] (.node (.node (.node (.node (.node .leaf 0x10A3 [0x2D03] .leaf) 0x10A4 [0x2D04] .leaf)
  0x10A5 [0x2D05] (.node (.node .leaf 0x10A6 [0x2D06] .leaf) 0x10A7 [0x2D07] .leaf)) 0x10A8 [0x2D08]
  (.node (.node (.node .leaf 0x10A9 [0x2D09] .leaf) 0x10AA [0x2D0A] .leaf) 0x10AB [0x2D0B] (.node
  .leaf 0x10AC [0x2D0C] .leaf))) 0x10AD [0x2D0D] (.node (.node (.node (.node .leaf 0x10AE [0x2D0E]
  .leaf) 0x10AF [0x2D0F] .leaf) 0x10B0 [0x2D10] (.node (.node .leaf 0x10B1 [0x2D11] .leaf) 0x10B2
  [0x2D12] .leaf)) 0x10B3 [0x2D13] (.node (.node (.node .leaf 0x10B4 [0x2D14] .leaf) 0x10B5 [0x2D15]
  .leaf) 0x10B6 [0x2D16] (.node .leaf 0x10B7 [0x2D17] .leaf))))) 0x10B8 [0x2D18] (.node (.node
  (.node (.node (.node (.node .leaf 0x10B9 [0x2D19] .leaf) 0x10BA [0x2D1A] .leaf) 0x10BB [0x2D1B]
  (.node (.node .leaf 0x10BC [0x2D1C] .leaf) 0x10BD [0x2D1D] .leaf)) 0x10BE [0x2D1E] (.node (.node
  (.node .leaf 0x10BF [0x2D1F] .leaf) 0x10C0 [0x2D20] .leaf) 0x10C1 [0x2D21] (.node .leaf 0x10C2
  [0x2D22] .leaf))) 0x10C3 [0x2D23] (.node (.node (.node (.node .leaf 0x10C4 [0x2D24] .leaf) 0x10C5
  [0x2D25] .leaf) 0x10C7 [0x2D27] (.node (.node .leaf 0x10CD [0x2D2D] .leaf) 0x13A0 [0xAB70] .leaf))
  0x13A1 [0xAB71] (.node (.node (.node .leaf 0x13A2 [0xAB72] .leaf) 0x13A3 [0xAB73] .leaf) 0x13A4
  [0xAB74] (.node .leaf 0x13A5 [0xAB75] .leaf)))) 0x13A6 [0xAB76] (.node (.node (.node (.node (.node
  .leaf 0x13A7 [0xAB77] .leaf) 0x13A8 [0xAB78] .leaf) 0x13A9 [0xAB79] (.node (.node .leaf 0x13AA
  [0xAB7A] .leaf) 0x13AB [0xAB7B] .leaf)) 0x13AC [0xAB7C] (.node (.node (.node .leaf 0x13AD [0xAB7D]
  .leaf) 0x13AE [0xAB7E] .leaf) 0x13AF [0xAB7F] (.node .leaf 0x13B0 [0xAB80] .leaf))) 0x13B1
  [0xAB81] (.node (.node (.node (.node .leaf 0x13B2 [0xAB82] .leaf) 0x13B3 [0xAB83] .leaf) 0x13B4
  [0xAB84] (.node (.node .leaf 0x13B5 [0xAB85] .leaf) 0x13B6 [0xAB86] .leaf)) 0x13B7 [0xAB87] (.node
  (.node (.node .leaf 0x13B8 [0xAB88] .leaf) 0x13B9 [0xAB89] .leaf) 0x13BA [0xAB8A] (.node .leaf
  0x13BB [0xAB8B] .leaf))))))) 0x13BC [0xAB8C] (.node (.node (.node (.node (.node (.node (.node
  (.node .leaf 0x13BD [0xAB8D] .leaf) 0x13BE [0xAB8E] .leaf) 0x13BF [0xAB8F] (.node (.node .leaf
  0x13C0 [0xAB90] .leaf) 0x13C1 [0xAB91] .leaf)) 0x13C2 [0xAB92] (.node (.node (.node .leaf 0x13C3
  [0xAB93] .leaf) 0x13C4 [0xAB94] .leaf) 0x13C5 [0xAB95] (.node (.node .leaf 0x13C6 [0xAB96] .leaf)
  0x13C7 [0xAB97] .leaf))) 0x13C8 [0xAB98] (.node (.node (.node (.node .leaf 0x13C9 [0xAB99] .leaf)
  0x13CA [0xAB9A] .leaf) 0x13CB [0xAB9B] (.node (.node .leaf 0x13CC [0xAB9C] .leaf) 0x13CD [0xAB9D]
  .leaf)) 0x13CE [0xAB9E] (.node (.node (.node .leaf 0x13CF [0xAB9F] .leaf) 0x13D0 [0xABA0] .leaf)
  0x13D1 [0xABA1] (.node .leaf 0x13D2 [0xABA2] .leaf)))) 0x13D3 [0xABA3] (.node (.node (.node (.node
  (.node .leaf 0x13D4 [0xABA4] .leaf) 0x13D5 [0xABA5] .leaf) 0x13D6 [0xABA6] (.node (.node .leaf
  0x13D7 [0xABA7] .leaf) 0x13D8 [0xABA8] .leaf)) 0x13D9 [0xABA9] (.node (.node (.node .leaf 0x13DA
  [0xABAA] .leaf) 0x13DB [0xABAB] .leaf) 0x13DC [0xABAC] (.node .leaf 0x13DD [0xABAD] .leaf)))
  0x13DE [0xABAE] (.node (.node (.node (.node .leaf 0x13DF [0xABAF] .leaf) 0x13E0 [0xABB0] .leaf)
  0x13E1 [0xABB1] (.node (.node .leaf 0x13E2 [0xABB2] .leaf) 0x13E3 [0xABB3] .leaf)) 0x13E4 [0xABB4]
  (.node (.node (.node .leaf 0x13E5 [0xABB5] .leaf) 0x13E6 [0xABB6] .leaf) 0x13E7 [0xABB7] (.node
  .leaf 0x13E8 [0xABB8] .leaf))))) 0x13E9 [0xABB9] (.node (.node (.node (.node (.node (.node .leaf
  0x13EA [0xABBA] .leaf) 0x13EB [0xABBB] .leaf) 0x13EC [0xABBC] (.node (.node .leaf 0x13ED [0xABBD]
  .leaf) 0x13EE [0xABBE] .leaf)) 0x13EF [0xABBF] (.node (.node (.node .leaf 0x13F0 [0x13F8] .leaf)
  0x13F1 [0x13F9] .leaf) 0x13F2 [0x13FA] (.node (.node .leaf 0x13F3 [0x13FB] .leaf) 0x13F4 [0x13FC]
  .leaf))) 0x13F5 [0x13FD] (.node (.node (.node (.node .leaf 0x1C90 [0x10D0] .leaf) 0x1C91 [0x10D1]
  .leaf) 0x1C92 [0x10D2] (.node (.node .leaf 0x1C93 [0x10D3] .leaf) 0x1C94 [0x10D4] .leaf)) 0x1C95
  [0x10D5] (.node (.node (.node .leaf 0x1C96 [0x10D6] .leaf) 0x1C97 [0x10D7] .leaf) 0x1C98 [0x10D8]
  (.node .leaf 0x1C99 [0x10D9] .leaf)))) 0x1C9A [0x10DA] (.node (.node (.node (.node (.node .leaf
  0x1C9B [0x10DB] .leaf) 0x1C9C [0x10DC] .leaf) 0x1C9D [0x10DD] (.node (.node .leaf 0x1C9E [0x10DE]
  .leaf) 0x1C9F [0x10DF] .leaf)) 0x1CA0 [0x10E0] (.node (.node (.node .leaf 0x1CA1 [0x10E1] .leaf)
  0x1CA2 [0x10E2] .leaf) 0x1CA3 [0x10E3] (.node .leaf 0x1CA4 [0x10E4] .leaf))) 0x1CA5 [0x10E5]
  (.node (.node (.node (.node .leaf 0x1CA6 [0x10E6] .leaf) 0x1CA7 [0x10E7] .leaf) 0x1CA8 [0x10E8]
  (.node (.node .leaf 0x1CA9 [0x10E9] .leaf) 0x1CAA [0x10EA] .leaf)) 0x1CAB [0x10EB] (.node (.node
  (.node .leaf 0x1CAC [0x10EC] .leaf) 0x1CAD [0x10ED] .leaf) 0x1CAE [0x10EE] (.node .leaf 0x1CAF
  [0x10EF] .leaf)))))) 0x1CB0 [0x10F0] (.node (.node (.node (.node (.node (.node (.node .leaf 0x1CB1
  [0x10F1] .leaf) 0x1CB2 [0x10F2] .leaf) 0x1CB3 [0x10F3] (.node (.node .leaf 0x1CB4 [0x10F4] .leaf)
  0x1CB5 [0x10F5] .leaf)) 0x1CB6 [0x10F6] (.node (.node (.node .leaf 0x1CB7 [0x10F7] .leaf) 0x1CB8
  [0x10F8] .leaf) 0x1CB9 [0x10F9] (.node (.node .leaf 0x1CBA [0x10FA] .leaf) 0x1CBD [0x10FD]
  .leaf))) 0x1CBE [0x10FE] (.node (.node (.node (.node .leaf 0x1CBF [0x10FF] .leaf) 0x1E00 [0x1E01]
  .leaf) 0x1E02 [0x1E03] (.node (.node .leaf 0x1E04 [0x1E05] .leaf) 0x1E06 [0x1E07] .leaf)) 0x1E08
  [0x1E09] (.node (.node (.node .leaf 0x1E0A [0x1E0B] .leaf) 0x1E0C [0x1E0D] .leaf) 0x1E0E [0x1E0F]
  (.node .leaf 0x1E10 [0x1E11] .leaf)))) 0x1E12 [0x1E13] (.node (.node (.node (.node (.node .leaf
  0x1E14 [0x1E15] .leaf) 0x1E16 [0x1E17] .leaf) 0x1E18 [0x1E19] (.node (.node .leaf 0x1E1A [0x1E1B]
  .leaf) 0x1E1C [0x1E1D] .leaf)) 0x1E1E [0x1E1F] (.node (.node (.node .leaf 0x1E20 [0x1E21] .leaf)
  0x1E22 [0x1E23] .leaf) 0x1E24 [0x1E25] (.node .leaf 0x1E26 [0x1E27] .leaf))) 0x1E28 [0x1E29]
  (.node (.node (.node (.node .leaf 0x1E2A [0x1E2B] .leaf) 0x1E2C [0x1E2D] .leaf) 0x1E2E [0x1E2F]
  (.node (.node .leaf 0x1E30 [0x1E31] .leaf) 0x1E32 [0x1E33] .leaf)) 0x1E34 [0x1E35] (.node (.node
  (.node .leaf 0x1E36 [0x1E37] .leaf) 0x1E38 [0x1E39] .leaf) 0x1E3A [0x1E3B] (.node .leaf 0x1E3C
  [0x1E3D] .leaf))))) 0x1E3E [0x1E3F] (.node (.node (.node (.node (.node (.node .leaf 0x1E40
  [0x1E41] .leaf) 0x1E42 [0x1E43] .leaf) 0x1E44 [0x1E45] (.node (.node .leaf 0x1E46 [0x1E47] .leaf)
  0x1E48 [0x1E49] .leaf)) 0x1E4A [0x1E4B] (.node (.node (.node .leaf 0x1E4C [0x1E4D] .leaf) 0x1E4E
  [0x1E4F] .leaf) 0x1E50 [0x1E51] (.node .leaf 0x1E52 [0x1E53] .leaf))) 0x1E54 [0x1E55] (.node
  (.node (.node (.node .leaf 0x1E56 [0x1E57] .leaf) 0x1E58 [0x1E59] .leaf) 0x1E5A [0x1E5B] (.node
  (.node .leaf 0x1E5C [0x1E5D] .leaf) 0x1E5E [0x1E5F] .leaf)) 0x1E60 [0x1E61] (.node (.node (.node
  .leaf 0x1E62 [0x1E63] .leaf) 0x1E64 [0x1E65] .leaf) 0x1E66 [0x1E67] (.node .leaf 0x1E68 [0x1E69]
  .leaf)))) 0x1E6A [0x1E6B] (.node (.node (.node (.node (.node .leaf 0x1E6C [0x1E6D] .leaf) 0x1E6E
  [0x1E6F] .leaf) 0x1E70 [0x1E71] (.node (.node .leaf 0x1E72 [0x1E73] .leaf) 0x1E74 [0x1E75] .leaf))
  0x1E76 [0x1E77] (.node (.node (.node .leaf 0x1E78 [0x1E79] .leaf) 0x1E7A [0x1E7B] .leaf) 0x1E7C
  [0x1E7D] (.node .leaf 0x1E7E [0x1E7F] .leaf))) 0x1E80 [0x1E81] (.node (.node (.node (.node .leaf
  0x1E82 [0x1E83] .leaf) 0x1E84 [0x1E85] .leaf) 0x1E86 [0x1E87] (.node (.node .leaf 0x1E88 [0x1E89]
  .leaf) 0x1E8A [0x1E8B] .leaf)) 0x1E8C [0x1E8D] (.node (.node (.node .leaf 0x1E8E [0x1E8F] .leaf)
  0x1E90 [0x1E91] .leaf) 0x1E92 [0x1E93] (.node .leaf 0x1E94 [0x1E95] .leaf))))))))) 0x1E9E [0xDF]
  (.node (.node (.node (.node (.node (.node (.node (.node (.node (.node .leaf 0x1EA0 [0x1EA1] .leaf)
  0x1EA2 [0x1EA3] .leaf) 0x1EA4 [0x1EA5] (.node (.node .leaf 0x1EA6 [0x1EA7] .leaf) 0x1EA8 [0x1EA9]
  .leaf)) 0x1EAA [0x1EAB] (.node (.node (.node .leaf 0x1EAC [0x1EAD] .leaf) 0x1EAE [0x1EAF] .leaf)
  0x1EB0 [0x1EB1] (.node (.node .leaf 0x1EB2 [0x1EB3] .leaf) 0x1EB4 [0x1EB5] .leaf))) 0x1EB6
  [0x1EB7] (.node (.node (.node (.node .leaf 0x1EB8 [0x1EB9] .leaf) 0x1EBA [0x1EBB] .leaf) 0x1EBC
  [0x1EBD] (.node (.node .leaf 0x1EBE [0x1EBF] .leaf) 0x1EC0 [0x1EC1] .leaf)) 0x1EC2 [0x1EC3] (.node
  (.node (.node .leaf 0x1EC4 [0x1EC5] .leaf) 0x1EC6 [0x1EC7] .leaf) 0x1EC8 [0x1EC9] (.node .leaf
  0x1ECA [0x1ECB] .leaf)))) 0x1ECC [0x1ECD] (.node (.node (.node (.node (.node .leaf 0x1ECE [0x1ECF]
  .leaf) 0x1ED0 [0x1ED1] .leaf) 0x1ED2 [0x1ED3] (.node (.node .leaf 0x1ED4 [0x1ED5] .leaf) 0x1ED6
  [0x1ED7] .leaf)) 0x1ED8 [0x1ED9] (.node (.node (.node .leaf 0x1EDA [0x1EDB] .leaf) 0x1EDC [0x1EDD]
  .leaf) 0x1EDE [0x1EDF] (.node .leaf 0x1EE0 [0x1EE1] .leaf))) 0x1EE2 [0x1EE3] (.node (.node (.node
  (.node .leaf 0x1EE4 [0x1EE5] .leaf) 0x1EE6 [0x1EE7] .leaf) 0x1EE8 [0x1EE9] (.node (.node .leaf
  0x1EEA [0x1EEB] .leaf) 0x1EEC [0x1EED] .leaf)) 0x1EEE [0x1EEF] (.node (.node (.node .leaf 0x1EF0
  [0x1EF1] .leaf) 0x1EF2 [0x1EF3] .leaf) 0x1EF4 [0x1EF5] (.node .leaf 0x1EF6 [0x1EF7] .leaf)))))
  0x1EF8 [0x1EF9] (.node (.node (.node (.node (.node (.node .leaf 0x1EFA [0x1EFB] .leaf) 0x1EFC
  [0x1EFD] .leaf) 0x1EFE [0x1EFF] (.node (.node .leaf 0x1F08 [0x1F00] .leaf) 0x1F09 [0x1F01] .leaf))
  0x1F0A [0x1F02] (.node (.node (.node .leaf 0x1F0B [0x1F03] .leaf) 0x1F0C [0x1F04] .leaf) 0x1F0D
  [0x1F05] (.node (.node .leaf 0x1F0E [0x1F06] .leaf) 0x1F0F [0x1F07] .leaf))) 0x1F18 [0x1F10]
  (.node (.node (.node (.node .leaf 0x1F19 [0x1F11] .leaf) 0x1F1A [0x1F12] .leaf) 0x1F1B [0x1F13]
  (.node (.node .leaf 0x1F1C [0x1F14] .leaf) 0x1F1D [0x1F15] .leaf)) 0x1F28 [0x1F20] (.node (.node
  (.node .leaf 0x1F29 [0x1F21] .leaf) 0x1F2A [0x1F22] .leaf) 0x1F2B [0x1F23] (.node .leaf 0x1F2C
  [0x1F24] .leaf)))) 0x1F2D [0x1F25] (.node (.node (.node (.node (.node .leaf 0x1F2E [0x1F26] .leaf)
  0x1F2F [0x1F27] .leaf) 0x1F38 [0x1F30] (.node (.node .leaf 0x1F39 [0x1F31] .leaf) 0x1F3A [0x1F32]
  .leaf)) 0x1F3B [0x1F33] (.node (.node (.node .leaf 0x1F3C [0x1F34] .leaf) 0x1F3D [0x1F35] .leaf)
  0x1F3E [0x1F36] (.node .leaf 0x1F3F [0x1F37] .leaf))) 0x1F48 [0x1F40] (.node (.node (.node (.node
  .leaf 0x1F49 [0x1F41] .leaf) 0x1F4A [0x1F42] .leaf) 0x1F4B [0x1F43] (.node (.node .leaf 0x1F4C
  [0x1F44] .leaf) 0x1F4D [0x1F45] .leaf)) 0x1F59 [0x1F51] (.node (.node (.node .leaf 0x1F5B [0x1F53]
  .leaf) 0x1F5D [0x1F55] .leaf) 0x1F5F [0x1F57] (.node .leaf 0x1F68 [0x1F60] .leaf)))))) 0x1F69
  [0x1F61] (.node (.node (.node (.node (.node (.node (.node .leaf 0x1F6A [0x1F62] .leaf) 0x1F6B
  [0x1F63] .leaf) 0x1F6C [0x1F64] (.node (.node .leaf 0x1F6D [0x1F65] .leaf) 0x1F6E [0x1F66] .leaf))
  0x1F6F [0x1F67] (.node (.node (.node .leaf 0x1F88 [0x1F80] .leaf) 0x1F89 [0x1F81] .leaf) 0x1F8A
  [0x1F82] (.node (.node .leaf 0x1F8B [0x1F83] .leaf) 0x1F8C [0x1F84] .leaf))) 0x1F8D [0x1F85]
  (.node (.node (.node (.node .leaf 0x1F8E [0x1F86] .leaf) 0x1F8F [0x1F87] .leaf) 0x1F98 [0x1F90]
  (.node (.node .leaf 0x1F99 [0x1F91] .leaf) 0x1F9A [0x1F92] .leaf)) 0x1F9B [0x1F93] (.node (.node
  (.node .leaf 0x1F9C [0x1F94] .leaf) 0x1F9D [0x1F95] .leaf) 0x1F9E [0x1F96] (.node .leaf 0x1F9F
  [0x1F97] .leaf)))) 0x1FA8 [0x1FA0] (.node (.node (.node (.node (.node .leaf 0x1FA9 [0x1FA1] .leaf)
  0x1FAA [0x1FA2] .leaf) 0x1FAB [0x1FA3] (.node (.node .leaf 0x1FAC [0x1FA4] .leaf) 0x1FAD [0x1FA5]
  .leaf)) 0x1FAE [0x1FA6] (.node (.node (.node .leaf 0x1FAF [0x1FA7] .leaf) 0x1FB8 [0x1FB0] .leaf)
  0x1FB9 [0x1FB1] (.node .leaf 0x1FBA [0x1F70] .leaf))) 0x1FBB [0x1F71] (.node (.node (.node (.node
  .leaf 0x1FBC [0x1FB3] .leaf) 0x1FC8 [0x1F72] .leaf) 0x1FC9 [0x1F73] (.node (.node .leaf 0x1FCA
  [0x1F74] .leaf) 0x1FCB [0x1F75] .leaf)) 0x1FCC [0x1FC3] (.node (.node (.node .leaf 0x1FD8 [0x1FD0]
  .leaf) 0x1FD9 [0x1FD1] .leaf) 0x1FDA [0x1F76] (.node .leaf 0x1FDB [0x1F77] .leaf))))) 0x1FE8
  [0x1FE0] (.node (.node (.node (.node (.node (.node .leaf 0x1FE9 [0x1FE1] .leaf) 0x1FEA [0x1F7A]
  .leaf) 0x1FEB [0x1F7B] (.node (.node .leaf 0x1FEC [0x1FE5] .leaf) 0x1FF8 [0x1F78] .leaf)) 0x1FF9
  [0x1F79] (.node (.node (.node .leaf 0x1FFA [0x1F7C] .leaf) 0x1FFB [0x1F7D] .leaf) 0x1FFC [0x1FF3]
  (.node (.node .leaf 0x2126 [0x3C9] .leaf) 0x212A [0x6B] .leaf))) 0x212B [0xE5] (.node (.node
  (.node (.node .leaf 0x2132 [0x214E] .leaf) 0x2160 [0x2170] .leaf) 0x2161 [0x2171] (.node (.node
  .leaf 0x2162 [0x2172] .leaf) 0x2163 [0x2173] .leaf)) 0x2164 [0x2174] (.node (.node (.node .leaf
  0x2165 [0x2175] .leaf) 0x2166 [0x2176] .leaf) 0x2167 [0x2177] (.node .leaf 0x2168 [0x2178]
  .leaf)))) 0x2169 [0x2179] (.node (.node (.node (.node (.node .leaf 0x216A [0x217A] .leaf) 0x216B
  [0x217B] .leaf) 0x216C [0x217C] (.node (.node .leaf 0x216D [0x217D] .leaf) 0x216E [0x217E] .leaf))
  0x216F [0x217F] (.node (.node (.node .leaf 0x2183 [0x2184] .leaf) 0x24B6 [0x24D0] .leaf) 0x24B7
  [0x24D1] (.node .leaf 0x24B8 [0x24D2] .leaf))) 0x24B9 [0x24D3] (.node (.node (.node (.node .leaf
  0x24BA [0x24D4] .leaf) 0x24BB [0x24D5] .leaf) 0x24BC [0x24D6] (.node (.node .leaf 0x24BD [0x24D7]
  .leaf) 0x24BE [0x24D8] .leaf)) 0x24BF [0x24D9] (.node (.node (.node .leaf 0x24C0 [0x24DA] .leaf)
  0x24C1 [0x24DB] .leaf) 0x24C2 [0x24DC] (.node .leaf 0x24C3 [0x24DD] .leaf))))))) 0x24C4 [0x24DE]
  (.node (.node (.node (.node (.node (.node (.node (.node .leaf 0x24C5 [0x24DF] .leaf) 0x24C6
  [0x24E0] .leaf) 0x24C7 [0x24E1] (.node (.node .leaf 0x24C8 [0x24E2] .leaf) 0x24C9 [0x24E3] .leaf))
  0x24CA [0x24E4] (.node (.node (.node .leaf 0x24CB [0x24E5] .leaf) 0x24CC [0x24E6] .leaf) 0x24CD
  [0x24E7] (.node (.node .leaf 0x24CE [0x24E8] .leaf) 0x24CF [0x24E9] .leaf))) 0x2C00 [0x2C30]
  (.node (.node (.node (.node .leaf 0x2C01 [0x2C31] .leaf) 0x2C02 [0x2C32] .leaf) 0x2C03 [0x2C33]
  (.node (.node .leaf 0x2C04 [0x2C34] .leaf) 0x2C05 [0x2C35] .leaf)) 0x2C06 [0x2C36] (.node (.node
  (.node .leaf 0x2C07 [0x2C37] .leaf) 0x2C08 [0x2C38] .leaf) 0x2C09 [0x2C39] (.node .leaf 0x2C0A
  [0x2C3A] .leaf)))) 0x2C0B [0x2C3B] (.node (.node (.node (.node (.node .leaf 0x2C0C [0x2C3C] .leaf)
  0x2C0D [0x2C3D] .leaf) 0x2C0E [0x2C3E] (.node (.node .leaf 0x2C0F [0x2C3F] .leaf) 0x2C10 [0x2C40]
  .leaf)) 0x2C11 [0x2C41] (.node (.node (.node .leaf 0x2C12 [0x2C42] .leaf) 0x2C13 [0x2C43] .leaf)
  0x2C14 [0x2C44] (.node .leaf 0x2C15 [0x2C45] .leaf))) 0x2C16 [0x2C46] (.node (.node (.node (.node
  .leaf 0x2C17 [0x2C47] .leaf) 0x2C18 [0x2C48] .leaf) 0x2C19 [0x2C49] (.node (.node .leaf 0x2C1A
  [0x2C4A] .leaf) 0x2C1B [0x2C4B] .leaf)) 0x2C1C [0x2C4C] (.node (.node (.node .leaf 0x2C1D [0x2C4D]
  .leaf) 0x2C1E [0x2C4E] .leaf) 0x2C1F [0x2C4F] (.node .leaf 0x2C20 [0x2C50] .leaf))))) 0x2C21
  [0x2C51] (.node (.node (.node (.node (.node (.node .leaf 0x2C22 [0x2C52] .leaf) 0x2C23 [0x2C53]
  .leaf) 0x2C24 [0x2C54] (.node (.node .leaf 0x2C25 [0x2C55] .leaf) 0x2C26 [0x2C56] .leaf)) 0x2C27
  [0x2C57] (.node (.node (.node .leaf 0x2C28 [0x2C58] .leaf) 0x2C29 [0x2C59] .leaf) 0x2C2A [0x2C5A]
  (.node (.node .leaf 0x2C2B [0x2C5B] .leaf) 0x2C2C [0x2C5C] .leaf))) 0x2C2D [0x2C5D] (.node (.node
  (.node (.node .leaf 0x2C2E [0x2C5E] .leaf) 0x2C2F [0x2C5F] .leaf) 0x2C60 [0x2C61] (.node (.node
  .leaf 0x2C62 [0x26B] .leaf) 0x2C63 [0x1D7D] .leaf)) 0x2C64 [0x27D] (.node (.node (.node .leaf
  0x2C67 [0x2C68] .leaf) 0x2C69 [0x2C6A] .leaf) 0x2C6B [0x2C6C] (.node .leaf 0x2C6D [0x251]
  .leaf)))) 0x2C6E [0x271] (.node (.node (.node (.node (.node .leaf 0x2C6F [0x250] .leaf) 0x2C70
  [0x252] .leaf) 0x2C72 [0x2C73] (.node (.node .leaf 0x2C75 [0x2C76] .leaf) 0x2C7E [0x23F] .leaf))
  0x2C7F [0x240] (.node (.node (.node .leaf 0x2C80 [0x2C81] .leaf) 0x2C82 [0x2C83] .leaf) 0x2C84
  [0x2C85] (.node .leaf 0x2C86 [0x2C87] .leaf))) 0x2C88 [0x2C89] (.node (.node (.node (.node .leaf
  0x2C8A [0x2C8B] .leaf) 0x2C8C [0x2C8D] .leaf) 0x2C8E [0x2C8F] (.node (.node .leaf 0x2C90 [0x2C91]
  .leaf) 0x2C92 [0x2C93] .leaf)) 0x2C94 [0x2C95] (.node (.node (.node .leaf 0x2C96 [0x2C97] .leaf)
  0x2C98 [0x2C99] .leaf) 0x2C9A [0x2C9B] (.node .leaf 0x2C9C [0x2C9D] .leaf)))))) 0x2C9E [0x2C9F]
  (.node (.node (.node (.node (.node (.node (.node .leaf 0x2CA0 [0x2CA1] .leaf) 0x2CA2 [0x2CA3]
  .leaf) 0x2CA4 [0x2CA5] (.node (.node .leaf 0x2CA6 [0x2CA7] .leaf) 0x2CA8 [0x2CA9] .leaf)) 0x2CAA
  [0x2CAB] (.node (.node (.node .leaf 0x2CAC [0x2CAD] .leaf) 0x2CAE [0x2CAF] .leaf) 0x2CB0 [0x2CB1]
  (.node (.node .leaf 0x2CB2 [0x2CB3] .leaf) 0x2CB4 [0x2CB5] .leaf))) 0x2CB6 [0x2CB7] (.node (.node
  (.node (.node .leaf 0x2CB8 [0x2CB9] .leaf) 0x2CBA [0x2CBB] .leaf) 0x2CBC [0x2CBD] (.node (.node
  .leaf 0x2CBE [0x2CBF] .leaf) 0x2CC0 [0x2CC1] .leaf)) 0x2CC2 [0x2CC3] (.node (.node (.node .leaf
  0x2CC4 [0x2CC5] .leaf) 0x2CC6 [0x2CC7] .leaf) 0x2CC8 [0x2CC9] (.node .leaf 0x2CCA [0x2CCB]
  .leaf)))) 0x2CCC [0x2CCD] (.node (.node (.node (.node (.node .leaf 0x2CCE [0x2CCF] .leaf) 0x2CD0
  [0x2CD1] .leaf) 0x2CD2 [0x2CD3] (.node (.node .leaf 0x2CD4 [0x2CD5] .leaf) 0x2CD6 [0x2CD7] .leaf))
  0x2CD8 [0x2CD9] (.node (.node (.node .leaf 0x2CDA [0x2CDB] .leaf) 0x2CDC [0x2CDD] .leaf) 0x2CDE
  [0x2CDF] (.node .leaf 0x2CE0 [0x2CE1] .leaf))) 0x2CE2 [0x2CE3] (.node (.node (.node (.node .leaf
  0x2CEB [0x2CEC] .leaf) 0x2CED [0x2CEE] .leaf) 0x2CF2 [0x2CF3] (.node (.node .leaf 0xA640 [0xA641]
  .leaf) 0xA642 [0xA643] .leaf)) 0xA644 [0xA645] (.node (.node (.node .leaf 0xA646 [0xA647] .leaf)
  0xA648 [0xA649] .leaf) 0xA64A [0xA64B] (.node .leaf 0xA64C [0xA64D] .leaf))))) 0xA64E [0xA64F]
  (.node (.node (.node (.node (.node (.node .leaf 0xA650 [0xA651] .leaf) 0xA652 [0xA653] .leaf)
  0xA654 [0xA655] (.node (.node .leaf 0xA656 [0xA657] .leaf) 0xA658 [0xA659] .leaf)) 0xA65A [0xA65B]
  (.node (.node (.node .leaf 0xA65C [0xA65D] .leaf) 0xA65E [0xA65F] .leaf) 0xA660 [0xA661] (.node
  .leaf 0xA662 [0xA663] .leaf))) 0xA664 [0xA665] (.node (.node (.node (.node .leaf 0xA666 [0xA667]
  .leaf) 0xA668 [0xA669] .leaf) 0xA66A [0xA66B] (.node (.node .leaf 0xA66C [0xA66D] .leaf) 0xA680
  [0xA681] .leaf)) 0xA682 [0xA683] (.node (.node (.node .leaf 0xA684 [0xA685] .leaf) 0xA686 [0xA687]
  .leaf) 0xA688 [0xA689] (.node .leaf 0xA68A [0xA68B] .leaf)))) 0xA68C [0xA68D] (.node (.node (.node
  (.node (.node .leaf 0xA68E [0xA68F] .leaf) 0xA690 [0xA691] .leaf) 0xA692 [0xA693] (.node (.node
  .leaf 0xA694 [0xA695] .leaf) 0xA696 [0xA697] .leaf)) 0xA698 [0xA699] (.node (.node (.node .leaf
  0xA69A [0xA69B] .leaf) 0xA722 [0xA723] .leaf) 0xA724 [0xA725] (.node .leaf 0xA726 [0xA727]
  .leaf))) 0xA728 [0xA729] (.node (.node (.node (.node .leaf 0xA72A [0xA72B] .leaf) 0xA72C [0xA72D]
  .leaf) 0xA72E [0xA72F] (.node (.node .leaf 0xA732 [0xA733] .leaf) 0xA734 [0xA735] .leaf)) 0xA736
  [0xA737] (.node (.node (.node .leaf 0xA738 [0xA739] .leaf) 0xA73A [0xA73B] .leaf) 0xA73C [0xA73D]
  (.node .leaf 0xA73E [0xA73F] .leaf)))))))) 0xA740 [0xA741] (.node (.node (.node (.node (.node
  (.node (.node (.node (.node .leaf 0xA742 [0xA743] .leaf) 0xA744 [0xA745] .leaf) 0xA746 [0xA747]
  (.node (.node .leaf 0xA748 [0xA749] .leaf) 0xA74A [0xA74B] .leaf)) 0xA74C [0xA74D] (.node (.node
  (.node .leaf 0xA74E [0xA74F] .leaf) 0xA750 [0xA751] .leaf) 0xA752 [0xA753] (.node (.node .leaf
  0xA754 [0xA755] .leaf) 0xA756 [0xA757] .leaf))) 0xA758 [0xA759] (.node (.node (.node (.node .leaf
  0xA75A [0xA75B] .leaf) 0xA75C [0xA75D] .leaf) 0xA75E [0xA75F] (.node (.node .leaf 0xA760 [0xA761]
  .leaf) 0xA762 [0xA763] .leaf)) 0xA764 [0xA765] (.node (.node (.node .leaf 0xA766 [0xA767] .leaf)
  0xA768 [0xA769] .leaf) 0xA76A [0xA76B] (.node .leaf 0xA76C [0xA76D] .leaf)))) 0xA76E [0xA76F]
  (.node (.node (.node (.node (.node .leaf 0xA779 [0xA77A] .leaf) 0xA77B [0xA77C] .leaf) 0xA77D
  [0x1D79] (.node (.node .leaf 0xA77E [0xA77F] .leaf) 0xA780 [0xA781] .leaf)) 0xA782 [0xA783] (.node
  (.node (.node .leaf 0xA784 [0xA785] .leaf) 0xA786 [0xA787] .leaf) 0xA78B [0xA78C] (.node .leaf
  0xA78D [0x265] .leaf))) 0xA790 [0xA791] (.node (.node (.node (.node .leaf 0xA792 [0xA793] .leaf)
  0xA796 [0xA797] .leaf) 0xA798 [0xA799] (.node (.node .leaf 0xA79A [0xA79B] .leaf) 0xA79C [0xA79D]
  .leaf)) 0xA79E [0xA79F] (.node (.node (.node .leaf 0xA7A0 [0xA7A1] .leaf) 0xA7A2 [0xA7A3] .leaf)
  0xA7A4 [0xA7A5] (.node .leaf 0xA7A6 [0xA7A7] .leaf))))) 0xA7A8 [0xA7A9] (.node (.node (.node
  (.node (.node (.node .leaf 0xA7AA [0x266] .leaf) 0xA7AB [0x25C] .leaf) 0xA7AC [0x261] (.node
  (.node .leaf 0xA7AD [0x26C] .leaf) 0xA7AE [0x26A] .leaf)) 0xA7B0 [0x29E] (.node (.node (.node
  .leaf 0xA7B1 [0x287] .leaf) 0xA7B2 [0x29D] .leaf) 0xA7B3 [0xAB53] (.node (.node .leaf 0xA7B4
  [0xA7B5] .leaf) 0xA7B6 [0xA7B7] .leaf))) 0xA7B8 [0xA7B9] (.node (.node (.node (.node .leaf 0xA7BA
  [0xA7BB] .leaf) 0xA7BC [0xA7BD] .leaf) 0xA7BE [0xA7BF] (.node (.node .leaf 0xA7C0 [0xA7C1] .leaf)
  0xA7C2 [0xA7C3] .leaf)) 0xA7C4 [0xA794] (.node (.node (.node .leaf 0xA7C5 [0x282] .leaf) 0xA7C6
  [0x1D8E] .leaf) 0xA7C7 [0xA7C8] (.node .leaf 0xA7C9 [0xA7CA] .leaf)))) 0xA7D0 [0xA7D1] (.node
  (.node (.node (.node (.node .leaf 0xA7D6 [0xA7D7] .leaf) 0xA7D8 [0xA7D9] .leaf) 0xA7F5 [0xA7F6]
  (.node (.node .leaf 0xFF21 [0xFF41] .leaf) 0xFF22 [0xFF42] .leaf)) 0xFF23 [0xFF43] (.node (.node
  (.node .leaf 0xFF24 [0xFF44] .leaf) 0xFF25 [0xFF45] .leaf) 0xFF26 [0xFF46] (.node .leaf 0xFF27
  [0xFF47] .leaf))) 0xFF28 [0xFF48] (.node (.node (.node (.node .leaf 0xFF29 [0xFF49] .leaf) 0xFF2A
  [0xFF4A] .leaf) 0xFF2B [0xFF4B] (.node (.node .leaf 0xFF2C [0xFF4C] .leaf) 0xFF2D [0xFF4D] .leaf))
  0xFF2E [0xFF4E] (.node (.node (.node .leaf 0xFF2F [0xFF4F] .leaf) 0xFF30 [0xFF50] .leaf) 0xFF31
  [0xFF51] (.node .leaf 0xFF32 [0xFF52] .leaf)))))) 0xFF33 [0xFF53] (.node (.node (.node (.node
  (.node (.node (.node .leaf 0xFF34 [0xFF54] .leaf) 0xFF35 [0xFF55] .leaf) 0xFF36 [0xFF56] (.node
  (.node .leaf 0xFF37 [0xFF57] .leaf) 0xFF38 [0xFF58] .leaf)) 0xFF39 [0xFF59] (.node (.node (.node
  .leaf 0xFF3A [0xFF5A] .leaf) 0x10400 [0x10428] .leaf) 0x10401 [0x10429] (.node (.node .leaf
  0x10402 [0x1042A] .leaf) 0x10403 [0x1042B] .leaf))) 0x10404 [0x1042C] (.node (.node (.node (.node
  .leaf 0x10405 [0x1042D] .leaf) 0x10406 [0x1042E] .leaf) 0x10407 [0x1042F] (.node (.node .leaf
  0x10408 [0x10430] .leaf) 0x10409 [0x10431] .leaf)) 0x1040A [0x10432] (.node (.node (.node .leaf
  0x1040B [0x10433] .leaf) 0x1040C [0x10434] .leaf) 0x1040D [0x10435] (.node .leaf 0x1040E [0x10436]
  .leaf)))) 0x1040F [0x10437] (.node (.node (.node (.node (.node .leaf 0x10410 [0x10438] .leaf)
  0x10411 [0x10439] .leaf) 0x10412 [0x1043A] (.node (.node .leaf 0x10413 [0x1043B] .leaf) 0x10414
  [0x1043C] .leaf)) 0x10415 [0x1043D] (.node (.node (.node .leaf 0x10416 [0x1043E] .leaf) 0x10417
  [0x1043F] .leaf) 0x10418 [0x10440] (.node .leaf 0x10419 [0x10441] .leaf))) 0x1041A [0x10442]
  (.node (.node (.node (.node .leaf 0x1041B [0x10443] .leaf) 0x1041C [0x10444] .leaf) 0x1041D
  [0x10445] (.node (.node .leaf 0x1041E [0x10446] .leaf) 0x1041F [0x10447] .leaf)) 0x10420 [0x10448]
  (.node (.node (.node .leaf 0x10421 [0x10449] .leaf) 0x10422 [0x1044A] .leaf) 0x10423 [0x1044B]
  (.node .leaf 0x10424 [0x1044C] .leaf))))) 0x10425 [0x1044D] (.node (.node (.node (.node (.node
  (.node .leaf 0x10426 [0x1044E] .leaf) 0x10427 [0x1044F] .leaf) 0x104B0 [0x104D8] (.node (.node
  .leaf 0x104B1 [0x104D9] .leaf) 0x104B2 [0x104DA] .leaf)) 0x104B3 [0x104DB] (.node (.node (.node
  .leaf 0x104B4 [0x104DC] .leaf) 0x104B5 [0x104DD] .leaf) 0x104B6 [0x104DE] (.node .leaf 0x104B7
  [0x104DF] .leaf))) 0x104B8 [0x104E0] (.node (.node (.node (.node .leaf 0x104B9 [0x104E1] .leaf)
  0x104BA [0x104E2] .leaf) 0x104BB [0x104E3] (.node (.node .leaf 0x104BC [0x104E4] .leaf) 0x104BD
  [0x104E5] .leaf)) 0x104BE [0x104E6] (.node (.node (.node .leaf 0x104BF [0x104E7] .leaf) 0x104C0
  [0x104E8] .leaf) 0x104C1 [0x104E9] (.node .leaf 0x104C2 [0x104EA] .leaf)))) 0x104C3 [0x104EB]
  (.node (.node (.node (.node (.node .leaf 0x104C4 [0x104EC] .leaf) 0x104C5 [0x104ED] .leaf) 0x104C6
  [0x104EE] (.node (.node .leaf 0x104C7 [0x104EF] .leaf) 0x104C8 [0x104F0] .leaf)) 0x104C9 [0x104F1]
  (.node (.node (.node .leaf 0x104CA [0x104F2] .leaf) 0x104CB [0x104F3] .leaf) 0x104CC [0x104F4]
  (.node .leaf 0x104CD [0x104F5] .leaf))) 0x104CE [0x104F6] (.node (.node (.node (.node .leaf
  0x104CF [0x104F7] .leaf) 0x104D0 [0x104F8] .leaf) 0x104D1 [0x104F9] (.node (.node .leaf 0x104D2
  [0x104FA] .leaf) 0x104D3 [0x104FB] .leaf)) 0x10570 [0x10597] (.node (.node (.node .leaf 0x10571
  [0x10598] .leaf) 0x10572 [0x10599] .leaf) 0x10573 [0x1059A] (.node .leaf 0x10574 [0x1059B]
  .leaf))))))) 0x10575 [0x1059C] (.node (.node (.node (.node (.node (.node (.node (.node .leaf
  0x10576 [0x1059D] .leaf) 0x10577 [0x1059E] .leaf) 0x10578 [0x1059F] (.node (.node .leaf 0x10579
  [0x105A0] .leaf) 0x1057A [0x105A1] .leaf)) 0x1057C [0x105A3] (.node (.node (.node .leaf 0x1057D
  [0x105A4] .leaf) 0x1057E [0x105A5] .leaf) 0x1057F [0x105A6] (.node (.node .leaf 0x10580 [0x105A7]
  .leaf) 0x10581 [0x105A8] .leaf))) 0x10582 [0x105A9] (.node (.node (.node (.node .leaf 0x10583
  [0x105AA] .leaf) 0x10584 [0x105AB] .leaf) 0x10585 [0x105AC] (.node (.node .leaf 0x10586 [0x105AD]
  .leaf) 0x10587 [0x105AE] .leaf)) 0x10588 [0x105AF] (.node (.node (.node .leaf 0x10589 [0x105B0]
  .leaf) 0x1058A [0x105B1] .leaf) 0x1058C [0x105B3] (.node .leaf 0x1058D [0x105B4] .leaf)))) 0x1058E
  [0x105B5] (.node (.node (.node (.node (.node .leaf 0x1058F [0x105B6] .leaf) 0x10590 [0x105B7]
  .leaf) 0x10591 [0x105B8] (.node (.node .leaf 0x10592 [0x105B9] .leaf) 0x10594 [0x105BB] .leaf))
  0x10595 [0x105BC] (.node (.node (.node .leaf 0x10C80 [0x10CC0] .leaf) 0x10C81 [0x10CC1] .leaf)
  0x10C82 [0x10CC2] (.node .leaf 0x10C83 [0x10CC3] .leaf))) 0x10C84 [0x10CC4] (.node (.node (.node
  (.node .leaf 0x10C85 [0x10CC5] .leaf) 0x10C86 [0x10CC6] .leaf) 0x10C87 [0x10CC7] (.node (.node
  .leaf 0x10C88 [0x10CC8] .leaf) 0x10C89 [0x10CC9] .leaf)) 0x10C8A [0x10CCA] (.node (.node (.node
  .leaf 0x10C8B [0x10CCB] .leaf) 0x10C8C [0x10CCC] .leaf) 0x10C8D [0x10CCD] (.node .leaf 0x10C8E
  [0x10CCE] .leaf))))) 0x10C8F [0x10CCF] (.node (.node (.node (.node (.node (.node .leaf 0x10C90
  [0x10CD0] .leaf) 0x10C91 [0x10CD1] .leaf) 0x10C92 [0x10CD2] (.node (.node .leaf 0x10C93 [0x10CD3]
  .leaf) 0x10C94 [0x10CD4] .leaf)) 0x10C95 [0x10CD5] (.node (.node (.node .leaf 0x10C96 [0x10CD6]
  .leaf) 0x10C97 [0x10CD7] .leaf) 0x10C98 [0x10CD8] (.node (.node .leaf 0x10C99 [0x10CD9] .leaf)
  0x10C9A [0x10CDA] .leaf))) 0x10C9B [0x10CDB] (.node (.node (.node (.node .leaf 0x10C9C [0x10CDC]
  .leaf) 0x10C9D [0x10CDD] .leaf) 0x10C9E [0x10CDE] (.node (.node .leaf 0x10C9F [0x10CDF] .leaf)
  0x10CA0 [0x10CE0] .leaf)) 0x10CA1 [0x10CE1] (.node (.node (.node .leaf 0x10CA2 [0x10CE2] .leaf)
  0x10CA3 [0x10CE3] .leaf) 0x10CA4 [0x10CE4] (.node .leaf 0x10CA5 [0x10CE5] .leaf)))) 0x10CA6
  [0x10CE6] (.node (.node (.node (.node (.node .leaf 0x10CA7 [0x10CE7] .leaf) 0x10CA8 [0x10CE8]
  .leaf) 0x10CA9 [0x10CE9] (.node (.node .leaf 0x10CAA [0x10CEA] .leaf) 0x10CAB [0x10CEB] .leaf))
  0x10CAC [0x10CEC] (.node (.node (.node .leaf 0x10CAD [0x10CED] .leaf) 0x10CAE [0x10CEE] .leaf)
  0x10CAF [0x10CEF] (.node .leaf 0x10CB0 [0x10CF0] .leaf))) 0x10CB1 [0x10CF1] (.node (.node (.node
  (.node .leaf 0x10CB2 [0x10CF2] .leaf) 0x118A0 [0x118C0] .leaf) 0x118A1 [0x118C1] (.node (.node
  .leaf 0x118A2 [0x118C2] .leaf) 0x118A3 [0x118C3] .leaf)) 0x118A4 [0x118C4] (.node (.node (.node
  .leaf 0x118A5 [0x118C5] .leaf) 0x118A6 [0x118C6] .leaf) 0x118A7 [0x118C7] (.node .leaf 0x118A8
  [0x118C8] .leaf)))))) 0x118A9 [0x118C9] (.node (.node (.node (.node (.node (.node (.node .leaf
  0x118AA [0x118CA] .leaf) 0x118AB [0x118CB] .leaf) 0x118AC [0x118CC] (.node (.node .leaf 0x118AD
  [0x118CD] .leaf) 0x118AE [0x118CE] .leaf)) 0x118AF [0x118CF] (.node (.node (.node .leaf 0x118B0
  [0x118D0] .leaf) 0x118B1 [0x118D1] .leaf) 0x118B2 [0x118D2] (.node (.node .leaf 0x118B3 [0x118D3]
  .leaf) 0x118B4 [0x118D4] .leaf))) 0x118B5 [0x118D5] (.node (.node (.node (.node .leaf 0x118B6
  [0x118D6] .leaf) 0x118B7 [0x118D7] .leaf) 0x118B8 [0x118D8] (.node (.node .leaf 0x118B9 [0x118D9]
  .leaf) 0x118BA [0x118DA] .leaf)) 0x118BB [0x118DB] (.node (.node (.node .leaf 0x118BC [0x118DC]
  .leaf) 0x118BD [0x118DD] .leaf) 0x118BE [0x118DE] (.node .leaf 0x118BF [0x118DF] .leaf)))) 0x16E40
  [0x16E60] (.node (.node (.node (.node (.node .leaf 0x16E41 [0x16E61] .leaf) 0x16E42 [0x16E62]
  .leaf) 0x16E43 [0x16E63] (.node (.node .leaf 0x16E44 [0x16E64] .leaf) 0x16E45 [0x16E65] .leaf))
  0x16E46 [0x16E66] (.node (.node (.node .leaf 0x16E47 [0x16E67] .leaf) 0x16E48 [0x16E68] .leaf)
  0x16E49 [0x16E69] (.node .leaf 0x16E4A [0x16E6A] .leaf))) 0x16E4B [0x16E6B] (.node (.node (.node
  (.node .leaf 0x16E4C [0x16E6C] .leaf) 0x16E4D [0x16E6D] .leaf) 0x16E4E [0x16E6E] (.node (.node
  .leaf 0x16E4F [0x16E6F] .leaf) 0x16E50 [0x16E70] .leaf)) 0x16E51 [0x16E71] (.node (.node (.node
  .leaf 0x16E52 [0x16E72] .leaf) 0x16E53 [0x16E73] .leaf) 0x16E54 [0x16E74] (.node .leaf 0x16E55
  [0x16E75] .leaf))))) 0x16E56 [0x16E76] (.node (.node (.node (.node (.node (.node .leaf 0x16E57
  [0x16E77] .leaf) 0x16E58 [0x16E78] .leaf) 0x16E59 [0x16E79] (.node (.node .leaf 0x16E5A [0x16E7A]
  .leaf) 0x16E5B [0x16E7B] .leaf)) 0x16E5C [0x16E7C] (.node (.node (.node .leaf 0x16E5D [0x16E7D]
  .leaf) 0x16E5E [0x16E7E] .leaf) 0x16E5F [0x16E7F] (.node .leaf 0x1E900 [0x1E922] .leaf))) 0x1E901
  [0x1E923] (.node (.node (.node (.node .leaf 0x1E902 [0x1E924] .leaf) 0x1E903 [0x1E925] .leaf)
  0x1E904 [0x1E926] (.node (.node .leaf 0x1E905 [0x1E927] .leaf) 0x1E906 [0x1E928] .leaf)) 0x1E907
  [0x1E929] (.node (.node (.node .leaf 0x1E908 [0x1E92A] .leaf) 0x1E909 [0x1E92B] .leaf) 0x1E90A
  [0x1E92C] (.node .leaf 0x1E90B [0x1E92D] .leaf)))) 0x1E90C [0x1E92E] (.node (.node (.node (.node
  (.node .leaf 0x1E90D [0x1E92F] .leaf) 0x1E90E [0x1E930] .leaf) 0x1E90F [0x1E931] (.node (.node
  .leaf 0x1E910 [0x1E932] .leaf) 0x1E911 [0x1E933] .leaf)) 0x1E912 [0x1E934] (.node (.node (.node
  .leaf 0x1E913 [0x1E935] .leaf) 0x1E914 [0x1E936] .leaf) 0x1E915 [0x1E937] (.node .leaf 0x1E916
  [0x1E938] .leaf))) 0x1E917 [0x1E939] (.node (.node (.node (.node .leaf 0x1E918 [0x1E93A] .leaf)
  0x1E919 [0x1E93B] .leaf) 0x1E91A [0x1E93C] (.node (.node .leaf 0x1E91B [0x1E93D] .leaf) 0x1E91C
  [0x1E93E] .leaf)) 0x1E91D [0x1E93F] (.node (.node (.node .leaf 0x1E91E [0x1E940] .leaf) 0x1E91F
  [0x1E941] .leaf) 0x1E920 [0x1E942] (.node .leaf 0x1E921 [0x1E943] .leaf))))))))))

/-- The inclusive code-point ranges of the Unicode `Cased` property,
consulted by the final-sigma rule of Rust `str::to_lowercase`. -/
def casedTree : RangeTable :=
  (.node (.node (.node (.node (.node (.node (.node (.node .leaf 0x41 0x5A .leaf) 0x61 0x7A .leaf)
  0xAA 0xAA (.node .leaf 0xB5 0xB5 .leaf)) 0xBA 0xBA (.node (.node (.node .leaf 0xC0 0xD6 .leaf)
  0xD8 0xF6 .leaf) 0xF8 0x1BA (.node .leaf 0x1BC 0x1BF .leaf))) 0x1C4 0x293 (.node (.node (.node
  (.node .leaf 0x295 0x2AF .leaf) 0x370 0x373 .leaf) 0x376 0x377 (.node .leaf 0x37B 0x37D .leaf))
  0x37F 0x37F (.node (.node .leaf 0x386 0x386 .leaf) 0x388 0x38A (.node .leaf 0x38C 0x38C .leaf))))
  0x38E 0x3A1 (.node (.node (.node (.node (.node .leaf 0x3A3 0x3F5 .leaf) 0x3F7 0x481 .leaf) 0x48A
  0x52F (.node .leaf 0x531 0x556 .leaf)) 0x560 0x588 (.node (.node (.node .leaf 0x10A0 0x10C5 .leaf)
  0x10C7 0x10C7 .leaf) 0x10CD 0x10CD (.node .leaf 0x10D0 0x10FA .leaf))) 0x10FD 0x10FF (.node (.node
  (.node (.node .leaf 0x13A0 0x13F5 .leaf) 0x13F8 0x13FD .leaf) 0x1C80 0x1C88 (.node .leaf 0x1C90
  0x1CBA .leaf)) 0x1CBD 0x1CBF (.node (.node .leaf 0x1D00 0x1D2B .leaf) 0x1D6B 0x1D77 (.node .leaf
  0x1D79 0x1D9A .leaf))))) 0x1E00 0x1F15 (.node (.node (.node (.node (.node (.node .leaf 0x1F18
  0x1F1D .leaf) 0x1F20 0x1F45 .leaf) 0x1F48 0x1F4D (.node .leaf 0x1F50 0x1F57 .leaf)) 0x1F59 0x1F59
  (.node (.node (.node .leaf 0x1F5B 0x1F5B .leaf) 0x1F5D 0x1F5D .leaf) 0x1F5F 0x1F7D (.node .leaf
  0x1F80 0x1FB4 .leaf))) 0x1FB6 0x1FBC (.node (.node (.node (.node .leaf 0x1FBE 0x1FBE .leaf) 0x1FC2
  0x1FC4 .leaf) 0x1FC6 0x1FCC (.node .leaf 0x1FD0 0x1FD3 .leaf)) 0x1FD6 0x1FDB (.node (.node .leaf
  0x1FE0 0x1FEC .leaf) 0x1FF2 0x1FF4 (.node .leaf 0x1FF6 0x1FFC .leaf)))) 0x2102 0x2102 (.node
  (.node (.node (.node (.node .leaf 0x2107 0x2107 .leaf) 0x210A 0x2113 .leaf) 0x2115 0x2115 (.node
  .leaf 0x2119 0x211D .leaf)) 0x2124 0x2124 (.node (.node .leaf 0x2126 0x2126 .leaf) 0x2128 0x2128
  (.node .leaf 0x212A 0x212D .leaf))) 0x212F 0x2134 (.node (.node (.node (.node .leaf 0x2139 0x2139
  .leaf) 0x213C 0x213F .leaf) 0x2145 0x2149 (.node .leaf 0x214E 0x214E .leaf)) 0x2160 0x217F (.node
  (.node .leaf 0x2183 0x2184 .leaf) 0x24B6 0x24E9 (.node .leaf 0x2C00 0x2C7B .leaf)))))) 0x2C7E
  0x2CE4 (.node (.node (.node (.node (.node (.node (.node .leaf 0x2CEB 0x2CEE .leaf) 0x2CF2 0x2CF3
  .leaf) 0x2D00 0x2D25 (.node .leaf 0x2D27 0x2D27 .leaf)) 0x2D2D 0x2D2D (.node (.node (.node .leaf
  0xA640 0xA66D .leaf) 0xA680 0xA69B .leaf) 0xA722 0xA76F (.node .leaf 0xA771 0xA787 .leaf))) 0xA78B
  0xA78E (.node (.node (.node (.node .leaf 0xA790 0xA7CA .leaf) 0xA7D0 0xA7D1 .leaf) 0xA7D3 0xA7D3
  (.node .leaf 0xA7D5 0xA7D9 .leaf)) 0xA7F5 0xA7F6 (.node (.node .leaf 0xA7FA 0xA7FA .leaf) 0xAB30
  0xAB5A (.node .leaf 0xAB60 0xAB68 .leaf)))) 0xAB70 0xABBF (.node (.node (.node (.node (.node .leaf
  0xFB00 0xFB06 .leaf) 0xFB13 0xFB17 .leaf) 0xFF21 0xFF3A (.node .leaf 0xFF41 0xFF5A .leaf)) 0x10400
  0x1044F (.node (.node (.node .leaf 0x104B0 0x104D3 .leaf) 0x104D8 0x104FB .leaf) 0x10570 0x1057A
  (.node .leaf 0x1057C 0x1058A .leaf))) 0x1058C 0x10592 (.node (.node (.node (.node .leaf 0x10594
  0x10595 .leaf) 0x10597 0x105A1 .leaf) 0x105A3 0x105B1 (.node .leaf 0x105B3 0x105B9 .leaf)) 0x105BB
  0x105BC (.node (.node .leaf 0x10C80 0x10CB2 .leaf) 0x10CC0 0x10CF2 (.node .leaf 0x118A0 0x118DF
  .leaf))))) 0x16E40 0x16E7F (.node (.node (.node (.node (.node (.node .leaf 0x1D400 0x1D454 .leaf)
  0x1D456 0x1D49C .leaf) 0x1D49E 0x1D49F (.node .leaf 0x1D4A2 0x1D4A2 .leaf)) 0x1D4A5 0x1D4A6 (.node
  (.node (.node .leaf 0x1D4A9 0x1D4AC .leaf) 0x1D4AE 0x1D4B9 .leaf) 0x1D4BB 0x1D4BB (.node .leaf
  0x1D4BD 0x1D4C3 .leaf))) 0x1D4C5 0x1D505 (.node (.node (.node (.node .leaf 0x1D507 0x1D50A .leaf)
  0x1D50D 0x1D514 .leaf) 0x1D516 0x1D51C (.node .leaf 0x1D51E 0x1D539 .leaf)) 0x1D53B 0x1D53E (.node
  (.node .leaf 0x1D540 0x1D544 .leaf) 0x1D546 0x1D546 (.node .leaf 0x1D54A 0x1D550 .leaf)))) 0x1D552
  0x1D6A5 (.node (.node (.node (.node (.node .leaf 0x1D6A8 0x1D6C0 .leaf) 0x1D6C2 0x1D6DA .leaf)
  0x1D6DC 0x1D6FA (.node .leaf 0x1D6FC 0x1D714 .leaf)) 0x1D716 0x1D734 (.node (.node .leaf 0x1D736
  0x1D74E .leaf) 0x1D750 0x1D76E (.node .leaf 0x1D770 0x1D788 .leaf))) 0x1D78A 0x1D7A8 (.node (.node
  (.node (.node .leaf 0x1D7AA 0x1D7C2 .leaf) 0x1D7C4 0x1D7CB .leaf) 0x1DF00 0x1DF09 (.node .leaf
  0x1DF0B 0x1DF1E .leaf)) 0x1E900 0x1E943 (.node (.node .leaf 0x1F130 0x1F149 .leaf) 0x1F150 0x1F169
  (.node .leaf 0x1F170 0x1F189 .leaf)))))))

/-- The inclusive code-point ranges of the Unicode `Case_Ignorable`
property, consulted by the final-sigma rule of Rust `str::to_lowercase`. -/
def ignorableTree : RangeTable :=
  (.node (.node (.node (.node (.node (.node (.node (.node (.node .leaf 0x27 0x27 .leaf) 0x2E 0x2E
  (.node .leaf 0x3A 0x3A .leaf)) 0x5E 0x5E (.node (.node .leaf 0x60 0x60 .leaf) 0xA8 0xA8 .leaf))
  0xAD 0xAD (.node (.node (.node .leaf 0xAF 0xAF .leaf) 0xB4 0xB4 (.node .leaf 0xB7 0xB8 .leaf))
  0x2B0 0x36F (.node (.node .leaf 0x374 0x375 .leaf) 0x37A 0x37A .leaf))) 0x384 0x385 (.node (.node
  (.node (.node .leaf 0x387 0x387 .leaf) 0x483 0x489 (.node .leaf 0x559 0x559 .leaf)) 0x55F 0x55F
  (.node (.node .leaf 0x591 0x5BD .leaf) 0x5BF 0x5BF .leaf)) 0x5C1 0x5C2 (.node (.node (.node .leaf
  0x5C4 0x5C5 .leaf) 0x5C7 0x5C7 .leaf) 0x5F4 0x5F4 (.node (.node .leaf 0x600 0x605 .leaf) 0x610
  0x61A .leaf)))) 0x61C 0x61C (.node (.node (.node (.node (.node .leaf 0x640 0x640 .leaf) 0x64B
  0x65F (.node .leaf 0x670 0x670 .leaf)) 0x6D6 0x6DD (.node (.node .leaf 0x6DF 0x6E8 .leaf) 0x6EA
  0x6ED .leaf)) 0x70F 0x70F (.node (.node (.node .leaf 0x711 0x711 .leaf) 0x730 0x74A (.node .leaf
  0x7A6 0x7B0 .leaf)) 0x7EB 0x7F5 (.node (.node .leaf 0x7FA 0x7FA .leaf) 0x7FD 0x7FD .leaf))) 0x816
  0x82D (.node (.node (.node (.node .leaf 0x859 0x85B .leaf) 0x888 0x888 (.node .leaf 0x890 0x891
  .leaf)) 0x898 0x89F (.node (.node .leaf 0x8C9 0x902 .leaf) 0x93A 0x93A .leaf)) 0x93C 0x93C (.node
  (.node (.node .leaf 0x941 0x948 .leaf) 0x94D 0x94D .leaf) 0x951 0x957 (.node (.node .leaf 0x962
  0x963 .leaf) 0x971 0x971 .leaf))))) 0x981 0x981 (.node (.node (.node (.node (.node (.node .leaf
  0x9BC 0x9BC .leaf) 0x9C1 0x9C4 (.node .leaf 0x9CD 0x9CD .leaf)) 0x9E2 0x9E3 (.node (.node .leaf
  0x9FE 0x9FE .leaf) 0xA01 0xA02 .leaf)) 0xA3C 0xA3C (.node (.node (.node .leaf 0xA41 0xA42 .leaf)
  0xA47 0xA48 (.node .leaf 0xA4B 0xA4D .leaf)) 0xA51 0xA51 (.node (.node .leaf 0xA70 0xA71 .leaf)
  0xA75 0xA75 .leaf))) 0xA81 0xA82 (.node (.node (.node (.node .leaf 0xABC 0xABC .leaf) 0xAC1 0xAC5
  (.node .leaf 0xAC7 0xAC8 .leaf)) 0xACD 0xACD (.node (.node .leaf 0xAE2 0xAE3 .leaf) 0xAFA 0xAFF
  .leaf)) 0xB01 0xB01 (.node (.node (.node .leaf 0xB3C 0xB3C .leaf) 0xB3F 0xB3F .leaf) 0xB41 0xB44
  (.node (.node .leaf 0xB4D 0xB4D .leaf) 0xB55 0xB56 .leaf)))) 0xB62 0xB63 (.node (.node (.node
  (.node (.node .leaf 0xB82 0xB82 .leaf) 0xBC0 0xBC0 (.node .leaf 0xBCD 0xBCD .leaf)) 0xC00 0xC00
  (.node (.node .leaf 0xC04 0xC04 .leaf) 0xC3C 0xC3C .leaf)) 0xC3E 0xC40 (.node (.node (.node .leaf
  0xC46 0xC48 .leaf) 0xC4A 0xC4D .leaf) 0xC55 0xC56 (.node (.node .leaf 0xC62 0xC63 .leaf) 0xC81
  0xC81 .leaf))) 0xCBC 0xCBC (.node (.node (.node (.node .leaf 0xCBF 0xCBF .leaf) 0xCC6 0xCC6 (.node
  .leaf 0xCCC 0xCCD .leaf)) 0xCE2 0xCE3 (.node (.node .leaf 0xD00 0xD01 .leaf) 0xD3B 0xD3C .leaf))
  0xD41 0xD44 (.node (.node (.node .leaf 0xD4D 0xD4D .leaf) 0xD62 0xD63 .leaf) 0xD81 0xD81 (.node
  (.node .leaf 0xDCA 0xDCA .leaf) 0xDD2 0xDD4 .leaf)))))) 0xDD6 0xDD6 (.node (.node (.node (.node
  (.node (.node (.node .leaf 0xE31 0xE31 .leaf) 0xE34 0xE3A (.node .leaf 0xE46 0xE4E .leaf)) 0xEB1
  0xEB1 (.node (.node .leaf 0xEB4 0xEBC .leaf) 0xEC6 0xEC6 .leaf)) 0xEC8 0xECD (.node (.node (.node
  .leaf 0xF18 0xF19 .leaf) 0xF35 0xF35 (.node .leaf 0xF37 0xF37 .leaf)) 0xF39 0xF39 (.node (.node
  .leaf 0xF71 0xF7E .leaf) 0xF80 0xF84 .leaf))) 0xF86 0xF87 (.node (.node (.node (.node .leaf 0xF8D
  0xF97 .leaf) 0xF99 0xFBC (.node .leaf 0xFC6 0xFC6 .leaf)) 0x102D 0x1030 (.node (.node .leaf 0x1032
  0x1037 .leaf) 0x1039 0x103A .leaf)) 0x103D 0x103E (.node (.node (.node .leaf 0x1058 0x1059 .leaf)
  0x105E 0x1060 .leaf) 0x1071 0x1074 (.node (.node .leaf 0x1082 0x1082 .leaf) 0x1085 0x1086
  .leaf)))) 0x108D 0x108D (.node (.node (.node (.node (.node .leaf 0x109D 0x109D .leaf) 0x10FC
  0x10FC (.node .leaf 0x135D 0x135F .leaf)) 0x1712 0x1714 (.node (.node .leaf 0x1732 0x1733 .leaf)
  0x1752 0x1753 .leaf)) 0x1772 0x1773 (.node (.node (.node .leaf 0x17B4 0x17B5 .leaf) 0x17B7 0x17BD
  (.node .leaf 0x17C6 0x17C6 .leaf)) 0x17C9 0x17D3 (.node (.node .leaf 0x17D7 0x17D7 .leaf) 0x17DD
  0x17DD .leaf))) 0x180B 0x180F (.node (.node (.node (.node .leaf 0x1843 0x1843 .leaf) 0x1885 0x1886
  (.node .leaf 0x18A9 0x18A9 .leaf)) 0x1920 0x1922 (.node (.node .leaf 0x1927 0x1928 .leaf) 0x1932
  0x1932 .leaf)) 0x1939 0x193B (.node (.node (.node .leaf 0x1A17 0x1A18 .leaf) 0x1A1B 0x1A1B .leaf)
  0x1A56 0x1A56 (.node (.node .leaf 0x1A58 0x1A5E .leaf) 0x1A60 0x1A60 .leaf))))) 0x1A62 0x1A62
  (.node (.node (.node (.node (.node (.node .leaf 0x1A65 0x1A6C .leaf) 0x1A73 0x1A7C (.node .leaf
  0x1A7F 0x1A7F .leaf)) 0x1AA7 0x1AA7 (.node (.node .leaf 0x1AB0 0x1ACE .leaf) 0x1B00 0x1B03 .leaf))
  0x1B34 0x1B34 (.node (.node (.node .leaf 0x1B36 0x1B3A .leaf) 0x1B3C 0x1B3C (.node .leaf 0x1B42
  0x1B42 .leaf)) 0x1B6B 0x1B73 (.node (.node .leaf 0x1B80 0x1B81 .leaf) 0x1BA2 0x1BA5 .leaf)))
  0x1BA8 0x1BA9 (.node (.node (.node (.node .leaf 0x1BAB 0x1BAD .leaf) 0x1BE6 0x1BE6 (.node .leaf
  0x1BE8 0x1BE9 .leaf)) 0x1BED 0x1BED (.node (.node .leaf 0x1BEF 0x1BF1 .leaf) 0x1C2C 0x1C33 .leaf))
  0x1C36 0x1C37 (.node (.node (.node .leaf 0x1C78 0x1C7D .leaf) 0x1CD0 0x1CD2 .leaf) 0x1CD4 0x1CE0
  (.node (.node .leaf 0x1CE2 0x1CE8 .leaf) 0x1CED 0x1CED .leaf)))) 0x1CF4 0x1CF4 (.node (.node
  (.node (.node (.node .leaf 0x1CF8 0x1CF9 .leaf) 0x1D2C 0x1D6A (.node .leaf 0x1D78 0x1D78 .leaf))
  0x1D9B 0x1DFF (.node (.node .leaf 0x1FBD 0x1FBD .leaf) 0x1FBF 0x1FC1 .leaf)) 0x1FCD 0x1FCF (.node
  (.node (.node .leaf 0x1FDD 0x1FDF .leaf) 0x1FED 0x1FEF .leaf) 0x1FFD 0x1FFE (.node (.node .leaf
  0x200B 0x200F .leaf) 0x2018 0x2019 .leaf))) 0x2024 0x2024 (.node (.node (.node (.node .leaf 0x2027
  0x2027 .leaf) 0x202A 0x202E (.node .leaf 0x2060 0x2064 .leaf)) 0x2066 0x206F (.node (.node .leaf
  0x2071 0x2071 .leaf) 0x207F 0x207F .leaf)) 0x2090 0x209C (.node (.node (.node .leaf 0x20D0 0x20F0
  .leaf) 0x2C7C 0x2C7D .leaf) 0x2CEF 0x2CF1 (.node (.node .leaf 0x2D6F 0x2D6F .leaf) 0x2D7F 0x2D7F
  .leaf))))))) 0x2DE0 0x2DFF (.node (.node (.node (.node (.node (.node (.node (.node .leaf 0x2E2F
  0x2E2F .leaf) 0x3005 0x3005 (.node .leaf 0x302A 0x302D .leaf)) 0x3031 0x3035 (.node (.node .leaf
  0x303B 0x303B .leaf) 0x3099 0x309E .leaf)) 0x30FC 0x30FE (.node (.node (.node .leaf 0xA015 0xA015
  .leaf) 0xA4F8 0xA4FD (.node .leaf 0xA60C 0xA60C .leaf)) 0xA66F 0xA672 (.node (.node .leaf 0xA674
  0xA67D .leaf) 0xA67F 0xA67F .leaf))) 0xA69C 0xA69F (.node (.node (.node (.node .leaf 0xA6F0 0xA6F1
  .leaf) 0xA700 0xA721 (.node .leaf 0xA770 0xA770 .leaf)) 0xA788 0xA78A (.node (.node .leaf 0xA7F2
  0xA7F4 .leaf) 0xA7F8 0xA7F9 .leaf)) 0xA802 0xA802 (.node (.node (.node .leaf 0xA806 0xA806 .leaf)
  0xA80B 0xA80B .leaf) 0xA825 0xA826 (.node (.node .leaf 0xA82C 0xA82C .leaf) 0xA8C4 0xA8C5
  .leaf)))) 0xA8E0 0xA8F1 (.node (.node (.node (.node (.node .leaf 0xA8FF 0xA8FF .leaf) 0xA926
  0xA92D (.node .leaf 0xA947 0xA951 .leaf)) 0xA980 0xA982 (.node (.node .leaf 0xA9B3 0xA9B3 .leaf)
  0xA9B6 0xA9B9 .leaf)) 0xA9BC 0xA9BD (.node (.node (.node .leaf 0xA9CF 0xA9CF .leaf) 0xA9E5 0xA9E6
  (.node .leaf 0xAA29 0xAA2E .leaf)) 0xAA31 0xAA32 (.node (.node .leaf 0xAA35 0xAA36 .leaf) 0xAA43
  0xAA43 .leaf))) 0xAA4C 0xAA4C (.node (.node (.node (.node .leaf 0xAA70 0xAA70 .leaf) 0xAA7C 0xAA7C
  (.node .leaf 0xAAB0 0xAAB0 .leaf)) 0xAAB2 0xAAB4 (.node (.node .leaf 0xAAB7 0xAAB8 .leaf) 0xAABE
  0xAABF .leaf)) 0xAAC1 0xAAC1 (.node (.node (.node .leaf 0xAADD 0xAADD .leaf) 0xAAEC 0xAAED .leaf)
  0xAAF3 0xAAF4 (.node (.node .leaf 0xAAF6 0xAAF6 .leaf) 0xAB5B 0xAB5F .leaf))))) 0xAB69 0xAB6B
  (.node (.node (.node (.node (.node (.node .leaf 0xABE5 0xABE5 .leaf) 0xABE8 0xABE8 (.node .leaf
  0xABED 0xABED .leaf)) 0xFB1E 0xFB1E (.node (.node .leaf 0xFBB2 0xFBC2 .leaf) 0xFE00 0xFE0F .leaf))
  0xFE13 0xFE13 (.node (.node (.node .leaf 0xFE20 0xFE2F .leaf) 0xFE52 0xFE52 (.node .leaf 0xFE55
  0xFE55 .leaf)) 0xFEFF 0xFEFF (.node (.node .leaf 0xFF07 0xFF07 .leaf) 0xFF0E 0xFF0E .leaf)))
  0xFF1A 0xFF1A (.node (.node (.node (.node .leaf 0xFF3E 0xFF3E .leaf) 0xFF40 0xFF40 (.node .leaf
  0xFF70 0xFF70 .leaf)) 0xFF9E 0xFF9F (.node (.node .leaf 0xFFE3 0xFFE3 .leaf) 0xFFF9 0xFFFB .leaf))
  0x101FD 0x101FD (.node (.node (.node .leaf 0x102E0 0x102E0 .leaf) 0x10376 0x1037A .leaf) 0x10780
  0x10785 (.node (.node .leaf 0x10787 0x107B0 .leaf) 0x107B2 0x107BA .leaf)))) 0x10A01 0x10A03
  (.node (.node (.node (.node (.node .leaf 0x10A05 0x10A06 .leaf) 0x10A0C 0x10A0F (.node .leaf
  0x10A38 0x10A3A .leaf)) 0x10A3F 0x10A3F (.node (.node .leaf 0x10AE5 0x10AE6 .leaf) 0x10D24 0x10D27
  .leaf)) 0x10EAB 0x10EAC (.node (.node (.node .leaf 0x10F46 0x10F50 .leaf) 0x10F82 0x10F85 .leaf)
  0x11001 0x11001 (.node (.node .leaf 0x11038 0x11046 .leaf) 0x11070 0x11070 .leaf))) 0x11073
  0x11074 (.node (.node (.node (.node .leaf 0x1107F 0x11081 .leaf) 0x110B3 0x110B6 (.node .leaf
  0x110B9 0x110BA .leaf)) 0x110BD 0x110BD (.node (.node .leaf 0x110C2 0x110C2 .leaf) 0x110CD 0x110CD
  .leaf)) 0x11100 0x11102 (.node (.node (.node .leaf 0x11127 0x1112B .leaf) 0x1112D 0x11134 .leaf)
  0x11173 0x11173 (.node (.node .leaf 0x11180 0x11181 .leaf) 0x111B6 0x111BE .leaf)))))) 0x111C9
  0x111CC (.node (.node (.node (.node (.node (.node (.node .leaf 0x111CF 0x111CF .leaf) 0x1122F
  0x11231 (.node .leaf 0x11234 0x11234 .leaf)) 0x11236 0x11237 (.node (.node .leaf 0x1123E 0x1123E
  .leaf) 0x112DF 0x112DF .leaf)) 0x112E3 0x112EA (.node (.node (.node .leaf 0x11300 0x11301 .leaf)
  0x1133B 0x1133C (.node .leaf 0x11340 0x11340 .leaf)) 0x11366 0x1136C (.node (.node .leaf 0x11370
  0x11374 .leaf) 0x11438 0x1143F .leaf))) 0x11442 0x11444 (.node (.node (.node (.node .leaf 0x11446
  0x11446 .leaf) 0x1145E 0x1145E (.node .leaf 0x114B3 0x114B8 .leaf)) 0x114BA 0x114BA (.node (.node
  .leaf 0x114BF 0x114C0 .leaf) 0x114C2 0x114C3 .leaf)) 0x115B2 0x115B5 (.node (.node (.node .leaf
  0x115BC 0x115BD .leaf) 0x115BF 0x115C0 .leaf) 0x115DC 0x115DD (.node (.node .leaf 0x11633 0x1163A
  .leaf) 0x1163D 0x1163D .leaf)))) 0x1163F 0x11640 (.node (.node (.node (.node (.node .leaf 0x116AB
  0x116AB .leaf) 0x116AD 0x116AD (.node .leaf 0x116B0 0x116B5 .leaf)) 0x116B7 0x116B7 (.node (.node
  .leaf 0x1171D 0x1171F .leaf) 0x11722 0x11725 .leaf)) 0x11727 0x1172B (.node (.node (.node .leaf
  0x1182F 0x11837 .leaf) 0x11839 0x1183A (.node .leaf 0x1193B 0x1193C .leaf)) 0x1193E 0x1193E (.node
  (.node .leaf 0x11943 0x11943 .leaf) 0x119D4 0x119D7 .leaf))) 0x119DA 0x119DB (.node (.node (.node
  (.node .leaf 0x119E0 0x119E0 .leaf) 0x11A01 0x11A0A (.node .leaf 0x11A33 0x11A38 .leaf)) 0x11A3B
  0x11A3E (.node (.node .leaf 0x11A47 0x11A47 .leaf) 0x11A51 0x11A56 .leaf)) 0x11A59 0x11A5B (.node
  (.node (.node .leaf 0x11A8A 0x11A96 .leaf) 0x11A98 0x11A99 .leaf) 0x11C30 0x11C36 (.node (.node
  .leaf 0x11C38 0x11C3D .leaf) 0x11C3F 0x11C3F .leaf))))) 0x11C92 0x11CA7 (.node (.node (.node
  (.node (.node (.node .leaf 0x11CAA 0x11CB0 .leaf) 0x11CB2 0x11CB3 (.node .leaf 0x11CB5 0x11CB6
  .leaf)) 0x11D31 0x11D36 (.node (.node .leaf 0x11D3A 0x11D3A .leaf) 0x11D3C 0x11D3D .leaf)) 0x11D3F
  0x11D45 (.node (.node (.node .leaf 0x11D47 0x11D47 .leaf) 0x11D90 0x11D91 (.node .leaf 0x11D95
  0x11D95 .leaf)) 0x11D97 0x11D97 (.node (.node .leaf 0x11EF3 0x11EF4 .leaf) 0x13430 0x13438
  .leaf))) 0x16AF0 0x16AF4 (.node (.node (.node (.node .leaf 0x16B30 0x16B36 .leaf) 0x16B40 0x16B43
  (.node .leaf 0x16F4F 0x16F4F .leaf)) 0x16F8F 0x16F9F (.node (.node .leaf 0x16FE0 0x16FE1 .leaf)
  0x16FE3 0x16FE4 .leaf)) 0x1AFF0 0x1AFF3 (.node (.node (.node .leaf 0x1AFF5 0x1AFFB .leaf) 0x1AFFD
  0x1AFFE .leaf) 0x1BC9D 0x1BC9E (.node (.node .leaf 0x1BCA0 0x1BCA3 .leaf) 0x1CF00 0x1CF2D
  .leaf)))) 0x1CF30 0x1CF46 (.node (.node (.node (.node (.node .leaf 0x1D167 0x1D169 .leaf) 0x1D173
  0x1D182 (.node .leaf 0x1D185 0x1D18B .leaf)) 0x1D1AA 0x1D1AD (.node (.node .leaf 0x1D242 0x1D244
  .leaf) 0x1DA00 0x1DA36 .leaf)) 0x1DA3B 0x1DA6C (.node (.node (.node .leaf 0x1DA75 0x1DA75 .leaf)
  0x1DA84 0x1DA84 .leaf) 0x1DA9B 0x1DA9F (.node (.node .leaf 0x1DAA1 0x1DAAF .leaf) 0x1E000 0x1E006
  .leaf))) 0x1E008 0x1E018 (.node (.node (.node (.node .leaf 0x1E01B 0x1E021 .leaf) 0x1E023 0x1E024
  (.node .leaf 0x1E026 0x1E02A .leaf)) 0x1E130 0x1E13D (.node (.node .leaf 0x1E2AE 0x1E2AE .leaf)
  0x1E2EC 0x1E2EF .leaf)) 0x1E8D0 0x1E8D6 (.node (.node (.node .leaf 0x1E944 0x1E94B .leaf) 0x1F3FB
  0x1F3FF .leaf) 0xE0001 0xE0001 (.node (.node .leaf 0xE0020 0xE007F .leaf) 0xE0100 0xE01EF
  .leaf))))))))

/-- The per-character branch of Rust `str::to_lowercase` for every
character other than capital sigma: the table expansion, or the character
itself when unmapped. -/
def charToLower (c : Char) : List Char :=
  match lowerTree.find c.toNat with
  | some ns => ns.map Char.ofNat
  | none => [c]

/-- The Unicode `Cased` property. -/
def isCased (c : Char) : Bool := casedTree.holds c.toNat

/-- The Unicode `Case_Ignorable` property. -/
def isCaseIgnorable (c : Char) : Bool := ignorableTree.holds c.toNat

/-- Embeds `case_ignorable_then_cased` from Rust `str::to_lowercase`:
skip `Case_Ignorable` characters, then test whether the first other
character is `Cased`. -/
def caseIgnorableThenCased : List Char → Bool
  | [] => false
  | c :: cs => if isCaseIgnorable c then caseIgnorableThenCased cs else isCased c

/-- The worker of Rust `str::to_lowercase`: `prevRev` is the already
processed prefix in reverse (the caller passes `[]`).  A capital sigma
becomes final sigma `ς` exactly when it is word-final (preceded by
case-ignorables and then a cased character, and not followed by
case-ignorables and then a cased character); every other character is
mapped through `charToLower`. -/
def rustToLowercaseAux : List Char → List Char → List Char
  | _, [] => []
  | prevRev, c :: rest =>
    (if c = 'Σ' then
      (if caseIgnorableThenCased prevRev && !caseIgnorableThenCased rest then
        ['ς']
      else
        ['σ'])
    else
      charToLower c) ++ rustToLowercaseAux (c :: prevRev) rest

/-- Embeds Rust `str::to_lowercase`: the full, one-to-many,
final-sigma-aware Unicode lowercasing. -/
def rustToLowercase (s : List Char) : List Char :=
  rustToLowercaseAux [] s

/-! ## The search engine (src/lib.rs, `search` / `search_case_insensitive`) -/

/-- `search` from src/lib.rs: iterate over `contents.lines()` and keep
exactly the lines that `contain` the query. -/
def search (query contents : List Char) : List (List Char) :=
  (rustLines contents).filter (fun line => isSubstring query line)

/-- `search_case_insensitive` from src/lib.rs: lowercase the query once,
then keep the original lines whose lowercased copy contains it. -/
def search_case_insensitive (query contents : List Char) : List (List Char) :=
  let q := rustToLowercase query
  (rustLines contents).filter (fun line => isSubstring q (rustToLowercase line))

/-! ## Environment, configuration and the runner -/

/-- A raw value of an environment variable, as the operating system holds
it: either valid Unicode text or not. -/
inductive OsValue where
  | unicode (s : String)
  | nonUnicode
  deriving DecidableEq

/-- The process environment: each variable name is unset or holds a raw
value. -/
def Environment : Type := String → Option OsValue

/-- The error type of `std::env::var`. -/
inductive VarError where
  | notPresent
  | notUnicode
  deriving DecidableEq

/-- Embeds `std::env::var(name)`: `Ok` exactly when the variable is set to
valid Unicode. -/
def envVar (env : Environment) (name : String) : Except VarError String :=
  match env name with
  | none => .error .notPresent
  | some .nonUnicode => .error .notUnicode
  | some (.unicode s) => .ok s

/-- The `Config` struct from src/lib.rs. -/
structure Config where
  query : String
  file_path : String
  ignore_case : Bool
  deriving DecidableEq

/-- `Config::build` from src/lib.rs: reject fewer than 3 arguments, else
take `args[1]` and `args[2]` and derive `ignore_case` from
`env::var("IGNORE_CASE").is_ok()`. -/
def Config.build (env : Environment) (args : List String) : Except String Config :=
  if h : args.length < 3 then
    .error "not enough arguments"
  else
    .ok { query := args.get ⟨1, by omega⟩
          file_path := args.get ⟨2, by omega⟩
          ignore_case := (envVar env "IGNORE_CASE").isOk }

/-- The cause carried by a failed file read, as surfaced by
`std::fs::read_to_string`. -/
inductive IoError where
  | notFound
  | permissionDenied
  | invalidData
  | otherFault
  deriving DecidableEq

/-- The file system as `run` observes it through
`std::fs::read_to_string`: each path either yields the file text or an
I/O error. -/
def FileSystem : Type := String → Except IoError String

/-- The error `run` returns: a file-read failure wrapping its cause. -/
inductive RunError where
  | fileReadError (cause : IoError)
  deriving DecidableEq

/-- `run` from src/lib.rs: read the file (propagating a read failure with
no output), select the search function by `ignore_case`, and print each
resulting line in order.  The second component is the sequence of printed
records. -/
def run (fs : FileSystem) (config : Config) : Except RunError Unit × List (List Char) :=
  match fs config.file_path with
  | .error e => (.error (.fileReadError e), [])
  | .ok contents =>
    let results :=
      if config.ignore_case then
        search_case_insensitive config.query.data contents.data
      else
        search config.query.data contents.data
    (.ok (), results)

/-! ## Specification-side notions -/

/-- `Sub q l`: `q` occurs as a contiguous substring of `l`. -/
def Sub (q l : List Char) : Prop :=
  ∃ s t, l = s ++ q ++ t

/-- Strip one trailing carriage return, as `str::lines` does to a line
that ended in `"\r\n"`. -/
def stripTrailingCR (l : List Char) : List Char :=
  if l.getLast? = some '\r' then l.dropLast else l

/-! ## Concrete instances used to exercise the theorems -/

/-- An environment in which `IGNORE_CASE` is set to a non-Unicode value
and nothing else is set. -/
def envNonUnicodeIgnoreCase : Environment := fun name =>
  if name = "IGNORE_CASE" then some OsValue.nonUnicode else none

/-- An environment in which `IGNORE_CASE` is set to the empty (Unicode)
string and nothing else is set. -/
def envUnicodeEmptyIgnoreCase : Environment := fun name =>
  if name = "IGNORE_CASE" then some (OsValue.unicode "") else none

/-- The empty environment: every variable is unset. -/
def envUnset : Environment := fun _ => none

/-- The configuration built from `["minigrep", "needle", "poem.txt"]`
under `envUnicodeEmptyIgnoreCase`. -/
def cfgIgnoreCase : Config :=
  { query := "needle", file_path := "poem.txt", ignore_case := true }

/-- The configuration built from `["minigrep", "needle", "poem.txt"]`
under an environment where `IGNORE_CASE` is unset or non-Unicode. -/
def cfgCaseSensitive : Config :=
  { query := "sun", file_path := "poem.txt", ignore_case := false }

/-- The configuration built from `["minigrep", "needle", "poem.txt"]`
when `IGNORE_CASE` is set to a non-Unicode value. -/
def cfgCaseSensitiveNeedle : Config :=
  { query := "needle", file_path := "poem.txt", ignore_case := false }

/-- A file system on which every read fails with a not-found error. -/
def fsMissing : FileSystem := fun _ => .error IoError.notFound

/-- A file system holding a two-line poem at `"poem.txt"`. -/
def fsPoem : FileSystem := fun path =>
  if path = "poem.txt" then .ok "the sun shines\nsafe and warm\n"
  else .error IoError.notFound

end Minigrep


namespace Minigrep

theorem splitInclusiveNl_cons_nl (cs : List Char) :
    splitInclusiveNl ('\n' :: cs) = ['\n'] :: splitInclusiveNl cs := rfl

theorem splitInclusiveNl_cons_other_nil {c : Char} {cs : List Char} (hc : c ≠ '\n')
    (hcs : splitInclusiveNl cs = []) : splitInclusiveNl (c :: cs) = [[c]] := by
  unfold splitInclusiveNl
  rw [if_neg hc, hcs]

theorem splitInclusiveNl_cons_other_cons {c : Char} {cs l : List Char}
    {ls : List (List Char)} (hc : c ≠ '\n') (hcs : splitInclusiveNl cs = l :: ls) :
    splitInclusiveNl (c :: cs) = (c :: l) :: ls := by
  unfold splitInclusiveNl
  rw [if_neg hc, hcs]

theorem splitInclusiveNl_no_nl {s : List Char} {p : List Char}
    (h : p ∈ splitInclusiveNl s) : '\n' ∉ p.dropLast := by
  induction s generalizing p with
  | nil => simp [splitInclusiveNl] at h
  | cons c cs ih =>
    by_cases hc : c = '\n'
    · subst hc
      rw [splitInclusiveNl_cons_nl] at h
      rcases List.mem_cons.mp h with rfl | h2
      · simp
      · exact ih h2
    · cases hs : splitInclusiveNl cs with
      | nil =>
        rw [splitInclusiveNl_cons_other_nil hc hs] at h
        simp at h
        subst h
        simp
      | cons l ls =>
        rw [splitInclusiveNl_cons_other_cons hc hs] at h
        rcases List.mem_cons.mp h with rfl | h2
        · cases l with
          | nil => simp [hc]
          | cons x xs =>
            have hl : '\n' ∉ (x :: xs).dropLast := ih (by rw [hs]; exact List.mem_cons_self _ _)
            rw [List.dropLast_cons₂]
            intro hmem
            rcases List.mem_cons.mp hmem with rfl | h3
            · exact hc rfl
            · exact hl h3
        · exact ih (by rw [hs]; exact List.mem_cons_of_mem _ h2)

theorem flatten_splitInclusiveNl (s : List Char) : (splitInclusiveNl s).flatten = s := by
  induction s with
  | nil => rfl
  | cons c cs ih =>
    by_cases hc : c = '\n'
    · subst hc
      rw [splitInclusiveNl_cons_nl]
      simp [ih]
    · cases hs : splitInclusiveNl cs with
      | nil =>
        rw [hs] at ih
        simp at ih
        rw [splitInclusiveNl_cons_other_nil hc hs]
        simp [← ih]
      | cons l ls =>
        rw [hs] at ih
        rw [splitInclusiveNl_cons_other_cons hc hs]
        simp only [List.flatten_cons] at ih ⊢
        simp [← ih]

theorem linesMap_no_nl {p : List Char} (h : '\n' ∉ p.dropLast) : '\n' ∉ linesMap p := by
  unfold linesMap
  by_cases h1 : p.getLast? = some '\n'
  · rw [if_pos h1]
    by_cases h2 : p.dropLast.getLast? = some '\r'
    · rw [if_pos h2]
      intro hmem
      exact h ((List.dropLast_sublist _).mem hmem)
    · rw [if_neg h2]
      exact h
  · rw [if_neg h1]
    rcases List.eq_nil_or_concat p with rfl | ⟨l2, a, rfl⟩
    · simp
    · intro hmem
      rw [List.concat_eq_append] at hmem h1 h
      rcases List.mem_append.mp hmem with h3 | h3
      · exact h (by simpa using h3)
      · simp at h3
        subst h3
        simp [List.getLast?_concat] at h1

theorem sub_refl (l : List Char) : Sub l l := ⟨[], [], by simp⟩

theorem sub_trans {a b c : List Char} (h1 : Sub a b) (h2 : Sub b c) : Sub a c := by
  rcases h1 with ⟨s1, t1, rfl⟩
  rcases h2 with ⟨s2, t2, rfl⟩
  exact ⟨s2 ++ s1, t1 ++ t2, by simp⟩

theorem sub_mem {q l : List Char} (h : Sub q l) {c : Char} (hc : c ∈ q) : c ∈ l := by
  rcases h with ⟨s, t, rfl⟩
  simp [hc]

theorem sub_dropLast (l : List Char) : Sub l.dropLast l := by
  rcases List.eq_nil_or_concat l with rfl | ⟨l2, a, rfl⟩
  · exact sub_refl _
  · rw [List.concat_eq_append, List.dropLast_concat]
    exact ⟨[], [a], rfl⟩

theorem sub_of_mem_flatten {p : List Char} {L : List (List Char)} (h : p ∈ L) :
    Sub p L.flatten := by
  induction L with
  | nil => simp at h
  | cons l ls ih =>
    rcases List.mem_cons.mp h with rfl | h2
    · exact ⟨[], ls.flatten, by simp⟩
    · rcases ih h2 with ⟨s, t, hst⟩
      exact ⟨l ++ s, t, by simp [hst]⟩

theorem linesMap_sub (p : List Char) : Sub (linesMap p) p := by
  unfold linesMap
  by_cases h1 : p.getLast? = some '\n'
  · rw [if_pos h1]
    by_cases h2 : p.dropLast.getLast? = some '\r'
    · rw [if_pos h2]
      exact sub_trans (sub_dropLast _) (sub_dropLast _)
    · rw [if_neg h2]
      exact sub_dropLast _
  · rw [if_neg h1]
    exact sub_refl _

theorem sub_of_mem_rustLines {s l : List Char} (h : l ∈ rustLines s) : Sub l s := by
  rcases List.mem_map.mp h with ⟨p, hp, rfl⟩
  have h1 : Sub p s := by
    have := sub_of_mem_flatten hp
    rwa [flatten_splitInclusiveNl] at this
  exact sub_trans (linesMap_sub p) h1

theorem rustLines_no_nl {s l : List Char} (h : l ∈ rustLines s) : '\n' ∉ l := by
  rcases List.mem_map.mp h with ⟨p, hp, rfl⟩
  exact linesMap_no_nl (splitInclusiveNl_no_nl hp)

theorem isPrefixList_iff (q l : List Char) : isPrefixList q l = true ↔ ∃ t, l = q ++ t := by
  induction q generalizing l with
  | nil => simp [isPrefixList]
  | cons a qs ih =>
    cases l with
    | nil => simp [isPrefixList]
    | cons b ls =>
      simp only [isPrefixList, Bool.and_eq_true, beq_iff_eq, ih, List.cons_append,
        List.cons.injEq]
      constructor
      · rintro ⟨rfl, t, rfl⟩
        exact ⟨t, rfl, rfl⟩
      · rintro ⟨t, rfl, rfl⟩
        exact ⟨rfl, t, rfl⟩

theorem isSubstring_iff (q l : List Char) : isSubstring q l = true ↔ Sub q l := by
  induction l with
  | nil =>
    simp only [isSubstring, isPrefixList_iff, Sub]
    constructor
    · rintro ⟨t, ht⟩
      exact ⟨[], t, by simpa using ht⟩
    · rintro ⟨s, t, h⟩
      cases s with
      | nil => exact ⟨t, by simpa using h⟩
      | cons x xs => simp at h
  | cons c ls ih =>
    simp only [isSubstring, Bool.or_eq_true, isPrefixList_iff, ih]
    constructor
    · rintro (⟨t, ht⟩ | ⟨s, t, rfl⟩)
      · exact ⟨[], t, by simpa using ht⟩
      · exact ⟨c :: s, t, by simp⟩
    · rintro ⟨s, t, h⟩
      cases s with
      | nil => exact Or.inl ⟨t, by simpa using h⟩
      | cons x xs =>
        right
        rw [List.cons_append, List.cons_append] at h
        cases h
        exact ⟨xs, t, by simp⟩

theorem isSubstring_nil_left (l : List Char) : isSubstring [] l = true := by
  rw [isSubstring_iff]
  exact ⟨[], l, rfl⟩

theorem count_filter_eq (p : List Char → Bool) (L : List (List Char)) (l : List Char) :
    (L.filter p).count l = if p l then L.count l else 0 := by
  by_cases h : p l
  · rw [if_pos h]
    exact List.count_filter h
  · rw [if_neg h]
    rw [List.count_eq_zero]
    intro hmem
    exact h (List.of_mem_filter hmem)

theorem splitInclusiveNl_append_nl {a : List Char} (b : List Char) (h : '\n' ∉ a) :
    splitInclusiveNl (a ++ '\n' :: b) = (a ++ ['\n']) :: splitInclusiveNl b := by
  induction a with
  | nil => simp [splitInclusiveNl_cons_nl]
  | cons c cs ih =>
    have hc : c ≠ '\n' := fun hc => h (hc ▸ List.mem_cons_self _ _)
    have hcs : '\n' ∉ cs := fun h2 => h (List.mem_cons_of_mem _ h2)
    rw [List.cons_append, splitInclusiveNl_cons_other_cons hc (ih hcs), List.cons_append]

theorem splitInclusiveNl_no_terminator {a : List Char} (h : '\n' ∉ a) (hne : a ≠ []) :
    splitInclusiveNl a = [a] := by
  induction a with
  | nil => exact absurd rfl hne
  | cons c cs ih =>
    have hc : c ≠ '\n' := fun hc => h (hc ▸ List.mem_cons_self _ _)
    have hcs : '\n' ∉ cs := fun h2 => h (List.mem_cons_of_mem _ h2)
    cases cs with
    | nil => exact splitInclusiveNl_cons_other_nil hc rfl
    | cons x xs =>
      have hx : splitInclusiveNl (x :: xs) = [x :: xs] := ih hcs (by simp)
      exact splitInclusiveNl_cons_other_cons hc hx

theorem linesMap_concat_nl (a : List Char) : linesMap (a ++ ['\n']) = stripTrailingCR a := by
  unfold linesMap stripTrailingCR
  rw [if_pos (List.getLast?_concat a), List.dropLast_concat]

theorem linesMap_no_terminator {a : List Char} (h : '\n' ∉ a) : linesMap a = a := by
  unfold linesMap
  rw [if_neg]
  intro h1
  rcases List.eq_nil_or_concat a with rfl | ⟨l2, x, rfl⟩
  · simp at h1
  · rw [List.concat_eq_append, List.getLast?_concat] at h1
    simp at h1
    subst h1
    exact h (by simp)

theorem CaseTable.find_allVals {p : List Nat → Bool} {t : CaseTable}
    (hall : t.allVals p = true) {n : Nat} {v : List Nat}
    (h : t.find n = some v) : p v = true := by
  induction t with
  | leaf => simp [CaseTable.find] at h
  | node lo k w hi ihlo ihhi =>
    rw [show CaseTable.allVals p (.node lo k w hi) =
        (p w && lo.allVals p && hi.allVals p) from rfl] at hall
    simp only [Bool.and_eq_true] at hall
    rw [show CaseTable.find n (.node lo k w hi) =
        (if n < k then lo.find n else if n = k then some w else hi.find n) from rfl] at h
    by_cases h1 : n < k
    · rw [if_pos h1] at h
      exact ihlo hall.1.2 h
    · rw [if_neg h1] at h
      by_cases h2 : n = k
      · rw [if_pos h2] at h
        injection h with h3
        rw [← h3]
        exact hall.1.1
      · rw [if_neg h2] at h
        exact ihhi hall.2 h

set_option maxRecDepth 4000 in
theorem lowerTree_no_nl :
    lowerTree.allVals (fun v => decide (('\n' : Char) ∉ v.map Char.ofNat)) = true := by
  decide

theorem charToLower_nl : charToLower '\n' = ['\n'] := by decide

theorem nl_mem_charToLower {c : Char} (h : '\n' ∈ charToLower c) : c = '\n' := by
  unfold charToLower at h
  cases hl : lowerTree.find c.toNat with
  | none =>
    rw [hl] at h
    simp at h
    exact h.symm
  | some ns =>
    rw [hl] at h
    change '\n' ∈ ns.map Char.ofNat at h
    have hp := CaseTable.find_allVals lowerTree_no_nl hl
    simp at hp
    rcases List.mem_map.mp h with ⟨x, hx, hxe⟩
    exact absurd hxe (hp x hx)

theorem charToLower_cr : charToLower '\r' = ['\r'] := by decide

theorem nl_mem_rustToLowercaseAux (s : List Char) :
    ∀ r, '\n' ∈ rustToLowercaseAux r s ↔ '\n' ∈ s := by
  induction s with
  | nil => intro r; rfl
  | cons c cs ih =>
    intro r
    have hstep : rustToLowercaseAux r (c :: cs) =
        (if c = 'Σ' then
          (if caseIgnorableThenCased r && !caseIgnorableThenCased cs then ['ς'] else ['σ'])
        else charToLower c) ++ rustToLowercaseAux (c :: r) cs := rfl
    rw [hstep, List.mem_append, ih (c :: r), List.mem_cons]
    by_cases hS : c = 'Σ'
    · subst hS
      rw [if_pos rfl]
      constructor
      · rintro (hc | hcs)
        · exfalso
          by_cases hb : (caseIgnorableThenCased r && !caseIgnorableThenCased cs) = true
          · rw [if_pos hb] at hc
            exact absurd hc (by decide)
          · rw [if_neg hb] at hc
            exact absurd hc (by decide)
        · exact Or.inr hcs
      · rintro (hc | hcs)
        · exact absurd hc (by decide)
        · exact Or.inr hcs
    · rw [if_neg hS]
      constructor
      · rintro (hc | hcs)
        · exact Or.inl (nl_mem_charToLower hc).symm
        · exact Or.inr hcs
      · rintro (hc | hcs)
        · rw [← hc, charToLower_nl]
          exact Or.inl (List.mem_singleton.mpr rfl)
        · exact Or.inr hcs

theorem nl_mem_rustToLowercase {s : List Char} :
    '\n' ∈ rustToLowercase s ↔ '\n' ∈ s :=
  nl_mem_rustToLowercaseAux s []

theorem caseIgnorableThenCased_append {m : Char} (h1 : isCaseIgnorable m = false)
    (h2 : isCased m = false) (x y : List Char) :
    caseIgnorableThenCased (x ++ m :: y) = caseIgnorableThenCased x := by
  induction x with
  | nil =>
    rw [List.nil_append]
    rw [show caseIgnorableThenCased (m :: y) =
        (if isCaseIgnorable m then caseIgnorableThenCased y else isCased m) from rfl]
    rw [h1, if_neg (by simp), h2]
    rfl
  | cons a as ih =>
    rw [List.cons_append]
    rw [show caseIgnorableThenCased (a :: (as ++ m :: y)) =
        (if isCaseIgnorable a then caseIgnorableThenCased (as ++ m :: y) else isCased a) from rfl]
    rw [show caseIgnorableThenCased (a :: as) =
        (if isCaseIgnorable a then caseIgnorableThenCased as else isCased a) from rfl]
    rw [ih]

theorem rustToLowercaseAux_prev_blocker {m : Char} (h1 : isCaseIgnorable m = false)
    (h2 : isCased m = false) (s : List Char) :
    ∀ p X, rustToLowercaseAux (p ++ m :: X) s = rustToLowercaseAux p s := by
  induction s with
  | nil => intro p X; rfl
  | cons c cs ih =>
    intro p X
    rw [show rustToLowercaseAux (p ++ m :: X) (c :: cs) =
        (if c = 'Σ' then
          (if caseIgnorableThenCased (p ++ m :: X) && !caseIgnorableThenCased cs then ['ς']
           else ['σ'])
        else charToLower c) ++ rustToLowercaseAux (c :: (p ++ m :: X)) cs from rfl]
    rw [show rustToLowercaseAux p (c :: cs) =
        (if c = 'Σ' then
          (if caseIgnorableThenCased p && !caseIgnorableThenCased cs then ['ς']
           else ['σ'])
        else charToLower c) ++ rustToLowercaseAux (c :: p) cs from rfl]
    rw [caseIgnorableThenCased_append h1 h2 p X]
    rw [show c :: (p ++ m :: X) = (c :: p) ++ m :: X from rfl, ih (c :: p) X]

theorem rustToLowercaseAux_split {m : Char} (h1 : isCaseIgnorable m = false)
    (h2 : isCased m = false) (h3 : charToLower m = [m]) (h4 : m ≠ 'Σ')
    (a : List Char) : ∀ r b, rustToLowercaseAux r (a ++ m :: b) =
      rustToLowercaseAux r a ++ m :: rustToLowercaseAux [] b := by
  induction a with
  | nil =>
    intro r b
    rw [List.nil_append]
    rw [show rustToLowercaseAux r (m :: b) =
        (if m = 'Σ' then
          (if caseIgnorableThenCased r && !caseIgnorableThenCased b then ['ς'] else ['σ'])
        else charToLower m) ++ rustToLowercaseAux (m :: r) b from rfl]
    rw [if_neg h4, h3]
    rw [show m :: r = [] ++ m :: r from rfl, rustToLowercaseAux_prev_blocker h1 h2 b [] r]
    rfl
  | cons x xs ih =>
    intro r b
    rw [List.cons_append]
    rw [show rustToLowercaseAux r (x :: (xs ++ m :: b)) =
        (if x = 'Σ' then
          (if caseIgnorableThenCased r && !caseIgnorableThenCased (xs ++ m :: b) then ['ς']
           else ['σ'])
        else charToLower x) ++ rustToLowercaseAux (x :: r) (xs ++ m :: b) from rfl]
    rw [show rustToLowercaseAux r (x :: xs) =
        (if x = 'Σ' then
          (if caseIgnorableThenCased r && !caseIgnorableThenCased xs then ['ς']
           else ['σ'])
        else charToLower x) ++ rustToLowercaseAux (x :: r) xs from rfl]
    rw [caseIgnorableThenCased_append h1 h2 xs b]
    rw [ih (x :: r) b]
    rw [List.append_assoc]

theorem rustToLowercase_append_nl (a b : List Char) :
    rustToLowercase (a ++ '\n' :: b) =
      rustToLowercase a ++ '\n' :: rustToLowercase b :=
  rustToLowercaseAux_split (by decide) (by decide) charToLower_nl (by decide) a [] b

theorem rustToLowercase_append_cr (a b : List Char) :
    rustToLowercase (a ++ '\r' :: b) =
      rustToLowercase a ++ '\r' :: rustToLowercase b :=
  rustToLowercaseAux_split (by decide) (by decide) charToLower_cr (by decide) a [] b

theorem exists_first_nl {c : List Char} (h : '\n' ∈ c) :
    ∃ a b, c = a ++ '\n' :: b ∧ '\n' ∉ a := by
  induction c with
  | nil => simp at h
  | cons x xs ih =>
    by_cases hx : x = '\n'
    · exact ⟨[], xs, by rw [hx, List.nil_append], by simp⟩
    · have hxs : '\n' ∈ xs := by
        rcases List.mem_cons.mp h with h1 | h1
        · exact absurd h1.symm hx
        · exact h1
      rcases ih hxs with ⟨a, b, rfl, hna⟩
      refine ⟨x :: a, b, rfl, ?_⟩
      intro hmem
      rcases List.mem_cons.mp hmem with h1 | h1
      · exact hx h1.symm
      · exact hna h1

theorem rustLines_append_nl {a : List Char} (b : List Char) (h : '\n' ∉ a) :
    rustLines (a ++ '\n' :: b) = stripTrailingCR a :: rustLines b := by
  unfold rustLines
  rw [splitInclusiveNl_append_nl b h, List.map_cons, linesMap_concat_nl]

theorem rustLines_single {a : List Char} (h : '\n' ∉ a) (hne : a ≠ []) :
    rustLines a = [a] := by
  unfold rustLines
  rw [splitInclusiveNl_no_terminator h hne, List.map_cons, List.map_nil,
    linesMap_no_terminator h]

theorem rustToLowercase_nil : rustToLowercase [] = [] := rfl

theorem sub_lower_of_mem_rustLines {c l : List Char} (h : l ∈ rustLines c) :
    Sub (rustToLowercase l) (rustToLowercase c) := by
  suffices H : ∀ n c2 l2, List.length c2 = n → l2 ∈ rustLines c2 →
      Sub (rustToLowercase l2) (rustToLowercase c2) from H c.length c l rfl h
  intro n
  induction n using Nat.strong_induction_on with
  | _ n ih =>
    intro c2 l2 hlen hmem
    by_cases hnl : '\n' ∈ c2
    · rcases exists_first_nl hnl with ⟨a, b, rfl, hna⟩
      rw [rustLines_append_nl b hna] at hmem
      rw [rustToLowercase_append_nl]
      rcases List.mem_cons.mp hmem with rfl | hmem2
      · unfold stripTrailingCR
        by_cases hcr : a.getLast? = some '\r'
        · rw [if_pos hcr]
          rcases List.eq_nil_or_concat a with rfl | ⟨a2, x, rfl⟩
          · simp at hcr
          · rw [List.concat_eq_append] at hcr ⊢
            rw [List.getLast?_concat] at hcr
            injection hcr with hx
            subst hx
            rw [List.dropLast_concat]
            rw [show a2 ++ ['\r'] = a2 ++ '\r' :: [] from rfl, rustToLowercase_append_cr]
            exact ⟨[], '\r' :: '\n' :: rustToLowercase b, by simp [rustToLowercase_nil]⟩
        · rw [if_neg hcr]
          exact ⟨[], '\n' :: rustToLowercase b, by simp⟩
      · have hblen : List.length b < n := by
          rw [← hlen]
          simp only [List.length_append, List.length_cons]
          omega
        have ihb := ih (List.length b) hblen b l2 rfl hmem2
        exact sub_trans ihb ⟨rustToLowercase a ++ ['\n'], [], by simp⟩
    · by_cases hc : c2 = []
      · subst hc
        simp [rustLines, splitInclusiveNl] at hmem
      · rw [rustLines_single hnl hc] at hmem
        rw [List.mem_singleton] at hmem
        subst hmem
        exact sub_refl _

/-! ## Claim theorems -/

/-- C1: `search query contents` is exactly the lines of `contents` that
contain `query` as a contiguous substring: every returned line contains
the query, every matching line of the input appears in the result, the
original line order is preserved (the result is a sublist of the line
sequence), and each line occurs in the result exactly as often as it
occurs among the matching lines of the input. -/
theorem search_exact_match (query contents : List Char) :
    (∀ l ∈ search query contents, Sub query l) ∧
    (∀ l ∈ rustLines contents, Sub query l → l ∈ search query contents) ∧
    List.Sublist (search query contents) (rustLines contents) ∧
    (∀ l, Sub query l →
        (search query contents).count l = (rustLines contents).count l) ∧
    (∀ l, ¬ Sub query l → (search query contents).count l = 0) := by
  refine ⟨?_, ?_, ?_, ?_, ?_⟩
  · intro l hl
    exact (isSubstring_iff _ _).mp (List.of_mem_filter hl)
  · intro l hl hsub
    exact List.mem_filter.mpr ⟨hl, (isSubstring_iff _ _).mpr hsub⟩
  · exact List.filter_sublist _
  · intro l hsub
    exact List.count_filter ((isSubstring_iff _ _).mpr hsub)
  · intro l hsub
    rw [List.count_eq_zero]
    intro hmem
    exact hsub ((isSubstring_iff _ _).mp (List.of_mem_filter hmem))

theorem search_exact_match_witness :
    ['a', 'b'] ∈ search ['b'] ['a', 'b', '\n', 'c'] :=
  (search_exact_match ['b'] ['a', 'b', '\n', 'c']).2.1 ['a', 'b'] (by decide)
    ⟨['a'], [], rfl⟩

/-- C3 counterexample: an environment in which `IGNORE_CASE` is set (to a
non-Unicode value), yet `Config.build` produces `ignore_case := false` --
refuting "set to any value implies true". -/
theorem config_set_var_not_sufficient :
    (envNonUnicodeIgnoreCase "IGNORE_CASE").isSome = true ∧
    Config.build envNonUnicodeIgnoreCase ["minigrep", "needle", "poem.txt"] =
      .ok { query := "needle", file_path := "poem.txt", ignore_case := false } :=
  ⟨rfl, rfl⟩

/-- C3 (amended): `Config.build` sets `ignore_case` to true exactly when
`IGNORE_CASE` is set to a valid-Unicode value (any such value, including
the empty string); it is false when the variable is unset or its value is
not valid Unicode. -/
theorem config_ignore_case_iff_unicode (env : Environment) (args : List String)
    (cfg : Config) (h : Config.build env args = .ok cfg) :
    cfg.ignore_case = true ↔ ∃ s, env "IGNORE_CASE" = some (OsValue.unicode s) := by
  unfold Config.build at h
  split at h
  · exact absurd h (by simp)
  · injection h with h2
    subst h2
    show (envVar env "IGNORE_CASE").isOk = true ↔ _
    unfold envVar
    cases henv : env "IGNORE_CASE" with
    | none => simp [Except.isOk, Except.toBool]
    | some v =>
      cases v with
      | unicode s => simp [Except.isOk, Except.toBool]
      | nonUnicode => simp [Except.isOk, Except.toBool]

theorem config_ignore_case_iff_unicode_witness :
    cfgIgnoreCase.ignore_case = true :=
  (config_ignore_case_iff_unicode envUnicodeEmptyIgnoreCase
      ["minigrep", "needle", "poem.txt"] cfgIgnoreCase rfl).mpr ⟨"", rfl⟩

/-- C4: `Config.build` fails with the insufficient-arguments error iff
fewer than 3 arguments are given; with 3 or more it succeeds, taking
`query` from position 1 and `file_path` from position 2 and performing no
other validation. -/
theorem config_build_arity (env : Environment) (args : List String) :
    (args.length < 3 → Config.build env args = .error "not enough arguments") ∧
    (∀ h : 3 ≤ args.length,
        Config.build env args =
          .ok { query := args.get ⟨1, by omega⟩
                file_path := args.get ⟨2, by omega⟩
                ignore_case := (envVar env "IGNORE_CASE").isOk }) := by
  constructor
  · intro h
    unfold Config.build
    rw [dif_pos h]
  · intro h
    unfold Config.build
    rw [dif_neg (by omega)]

theorem config_build_arity_witness :
    Config.build envUnset ["minigrep", "needle"] = .error "not enough arguments" ∧
    Config.build envUnset ["minigrep", "", ""] =
      .ok { query := "", file_path := "", ignore_case := false } := by
  constructor
  · exact (config_build_arity envUnset ["minigrep", "needle"]).1 (by decide)
  · exact (config_build_arity envUnset ["minigrep", "", ""]).2 (by decide)

/-- C5: if the file read fails, `run` returns a `fileReadError` wrapping
the underlying cause and prints nothing; if it succeeds, `run` prints
exactly the lines of the selected search function, in order, and returns
success (also when no line matched). -/
theorem run_read_error_or_results (fs : FileSystem) (config : Config) :
    (∀ e, fs config.file_path = .error e →
        run fs config = (.error (RunError.fileReadError e), [])) ∧
    (∀ contents, fs config.file_path = .ok contents →
        run fs config =
          (.ok (), if config.ignore_case then
              search_case_insensitive config.query.data contents.data
            else search config.query.data contents.data)) := by
  constructor
  · intro e he
    unfold run
    rw [he]
  · intro contents hc
    unfold run
    rw [hc]

theorem run_read_error_or_results_witness :
    run fsMissing cfgCaseSensitive = (.error (RunError.fileReadError IoError.notFound), []) ∧
    run fsPoem cfgCaseSensitive =
      (.ok (), if cfgCaseSensitive.ignore_case then
          search_case_insensitive cfgCaseSensitive.query.data
            "the sun shines\nsafe and warm\n".data
        else search cfgCaseSensitive.query.data "the sun shines\nsafe and warm\n".data) :=
  ⟨(run_read_error_or_results fsMissing cfgCaseSensitive).1 IoError.notFound rfl,
   (run_read_error_or_results fsPoem cfgCaseSensitive).2
      "the sun shines\nsafe and warm\n" rfl⟩

/-- C6: every line returned by `search` occurs verbatim as a contiguous
substring of `contents` and contains the query; every line returned by
`search_case_insensitive` occurs verbatim in `contents`, its lowercased
form is reproducible from the lowercased contents, and after lowercasing
it contains the lowercased query. -/
theorem results_verbatim_invariant (query contents : List Char) :
    (∀ l ∈ search query contents, Sub l contents ∧ Sub query l) ∧
    (∀ l ∈ search_case_insensitive query contents,
        Sub l contents ∧ Sub (rustToLowercase l) (rustToLowercase contents) ∧
        Sub (rustToLowercase query) (rustToLowercase l)) := by
  constructor
  · intro l hl
    exact ⟨sub_of_mem_rustLines (List.mem_of_mem_filter hl),
      (isSubstring_iff _ _).mp (List.of_mem_filter hl)⟩
  · intro l hl
    simp only [search_case_insensitive] at hl
    have hmem : l ∈ rustLines contents := List.mem_of_mem_filter hl
    have hq := List.of_mem_filter hl
    simp only [isSubstring_iff] at hq
    exact ⟨sub_of_mem_rustLines hmem, sub_lower_of_mem_rustLines hmem, hq⟩

theorem results_verbatim_invariant_witness :
    Sub ['a', 'b'] ['a', 'b', '\n', 'c'] ∧ Sub ['b'] ['a', 'b'] :=
  (results_verbatim_invariant ['b'] ['a', 'b', '\n', 'c']).1 ['a', 'b'] (by decide)

/-- C7: the line-splitting convention used by both search functions cuts
at a line feed (stripping it, and also one carriage return directly
before it), emits no trailing empty line when the contents end in a
terminator (splitting the empty remainder yields nothing), and still
emits a final unterminated line as it stands. -/
theorem rustLines_convention (a b : List Char) :
    rustLines ([] : List Char) = [] ∧
    ('\n' ∉ a → rustLines (a ++ '\n' :: b) = stripTrailingCR a :: rustLines b) ∧
    ('\n' ∉ a → a ≠ [] → rustLines a = [a]) :=
  ⟨rfl, fun h => rustLines_append_nl b h, fun h hne => rustLines_single h hne⟩

theorem rustLines_convention_witness :
    rustLines (['a', 'b', '\r'] ++ '\n' :: ['c', 'd']) =
      stripTrailingCR ['a', 'b', '\r'] :: rustLines ['c', 'd'] :=
  (rustLines_convention ['a', 'b', '\r'] ['c', 'd']).2.1 (by decide)

/-- C8: searching with the empty query returns every line of the
contents unchanged and in order, and searching any non-empty query in
empty contents returns no lines. -/
theorem search_empty_query_empty_contents (query contents : List Char) :
    search [] contents = rustLines contents ∧
    (query ≠ [] → search query [] = []) := by
  constructor
  · unfold search
    exact List.filter_eq_self.mpr (fun l _ => isSubstring_nil_left l)
  · intro _
    rfl

theorem search_empty_query_empty_contents_witness :
    search ['a'] [] = [] :=
  (search_empty_query_empty_contents ['a'] ['x']).2 (by decide)

/-- C9: when `IGNORE_CASE` is set to a value that is not valid Unicode,
`Config.build` still succeeds with `ignore_case = false`, and `run` then
performs the case-sensitive search. -/
theorem non_unicode_var_case_sensitive (env : Environment) (args : List String)
    (cfg : Config) (henv : env "IGNORE_CASE" = some OsValue.nonUnicode)
    (hbuild : Config.build env args = .ok cfg) :
    cfg.ignore_case = false ∧
    (∀ fs contents, fs cfg.file_path = .ok contents →
        run fs cfg = (.ok (), search cfg.query.data contents.data)) := by
  have hic : cfg.ignore_case = false := by
    unfold Config.build at hbuild
    split at hbuild
    · exact absurd hbuild (by simp)
    · injection hbuild with h2
      subst h2
      show (envVar env "IGNORE_CASE").isOk = false
      unfold envVar
      rw [henv]
      rfl
  refine ⟨hic, ?_⟩
  intro fs contents hc
  unfold run
  rw [hc, hic]
  rfl

theorem non_unicode_var_case_sensitive_witness :
    cfgCaseSensitiveNeedle.ignore_case = false :=
  (non_unicode_var_case_sensitive envNonUnicodeIgnoreCase
      ["minigrep", "needle", "poem.txt"] cfgCaseSensitiveNeedle rfl rfl).1

/-- C10: a query containing a line feed can never match: both search
functions return the empty result, because no line produced by the
line-splitting convention contains a line feed. -/
theorem newline_query_no_match (query contents : List Char) (h : '\n' ∈ query) :
    search query contents = [] ∧ search_case_insensitive query contents = [] := by
  constructor
  · unfold search
    rw [List.filter_eq_nil_iff]
    intro l hl hsub
    rw [isSubstring_iff] at hsub
    exact rustLines_no_nl hl (sub_mem hsub h)
  · simp only [search_case_insensitive]
    rw [List.filter_eq_nil_iff]
    intro l hl hsub
    rw [isSubstring_iff] at hsub
    have h1 : '\n' ∈ rustToLowercase query := nl_mem_rustToLowercase.mpr h
    exact rustLines_no_nl hl (nl_mem_rustToLowercase.mp (sub_mem hsub h1))

theorem newline_query_no_match_witness :
    search ['\n'] ['a'] = [] ∧ search_case_insensitive ['\n'] ['a'] = [] :=
  newline_query_no_match ['\n'] ['a'] (by decide)

end Minigrep
